/-
  Verification of the simply-kaspa-indexer ingestion and acceptance pipeline.

  Shallow embedding of the indexer's core components:
  the bulk-insert persistence codec (database/src/client/query/insert.rs),
  the checkpoint coordinator (indexer/src/checkpoint.rs), the block
  processor's pre-VCP acceptance purge (indexer/src/blocks/process_blocks.rs),
  the virtual-chain processor and its adaptive tip distance
  (indexer/src/virtual_chain/process_virtual_chain.rs), the transaction
  processor's TTL de-duplication (indexer/src/transactions/process_transactions.rs),
  the retention pruner (indexer/src/prune.rs, database/src/query/delete.rs)
  and the UTXO set importer (indexer/src/utxo_import/utxo_set_importer.rs).

  Tables are modelled as lists of typed rows; 32-byte hashes are abstracted
  to naturals (only equality on them is ever used); machine integers are
  modelled as Int or Nat; time instants are naturals (seconds since process
  start).  Stateful loops are modelled as explicit step functions over state
  records, and temporal claims are settled against traces of events.
-/
import Mathlib

namespace SimplyKaspa

/-- Abstraction of the 32-byte `Hash` type (`models/types/hash.rs`): only
equality is ever used by the code under study, so a natural number suffices. -/
abbrev Hash := Nat

/- ----------------------------------------------------------------
   Persistence codec rows, as bound by database/src/client/query/insert.rs
   ---------------------------------------------------------------- -/

/-- Row of the `blocks` table (15 columns bound by `insert_blocks`). -/
structure Block where
  hash : Hash
  accepted_id_merkle_root : Option Hash
  merge_set_blues_hashes : List Hash
  merge_set_reds_hashes : List Hash
  selected_parent_hash : Option Hash
  bits : Option Int
  blue_score : Option Int
  blue_work : Option Int
  daa_score : Option Int
  hash_merkle_root : Option Hash
  nonce : Option Int
  pruning_point : Option Hash
  timestamp : Int
  utxo_commitment : Option Hash
  version : Option Int
deriving DecidableEq

/-- Row of the `block_parent` table. -/
structure BlockParent where
  block_hash : Hash
  parent_hash : Hash
deriving DecidableEq

/-- Row of the `transactions` table (columns bound by `insert_transactions`,
field shapes from `mapping/src/mapper/transactions.rs::map_transaction`). -/
structure Transaction where
  transaction_id : Hash
  subnetwork_id : Int
  hash : Option Hash
  mass : Option Int
  payload : Option (List Nat)
  block_time : Int
deriving DecidableEq

/-- Row of the `transactions_inputs` table (columns bound by
`insert_transaction_inputs`). -/
structure TransactionInput where
  transaction_id : Hash
  index : Int
  previous_outpoint_hash : Hash
  previous_outpoint_index : Int
  signature_script : Option (List Nat)
  sig_op_count : Option Int
deriving DecidableEq

/-- Row of the `transactions_outputs` table (columns bound by
`insert_transaction_outputs`). -/
structure TransactionOutput where
  transaction_id : Hash
  index : Int
  amount : Int
  script_public_key : List Nat
  script_public_key_address : Option String
deriving DecidableEq

/-- Row of the `blocks_transactions` table. -/
structure BlockTransaction where
  block_hash : Hash
  transaction_id : Hash
deriving DecidableEq

/-- Row of the `transactions_acceptances` table
(`models/transaction_acceptance.rs`: both columns nullable). -/
structure TransactionAcceptance where
  transaction_id : Option Hash
  block_hash : Option Hash
deriving DecidableEq

/-- Row of the `addresses_transactions` table. -/
structure AddressTransaction where
  address : String
  transaction_id : Hash
  block_time : Int
deriving DecidableEq

/-- Row of the `scripts_transactions` table. -/
structure ScriptTransaction where
  script_public_key : List Nat
  transaction_id : Hash
  block_time : Int
deriving DecidableEq

/- ----------------------------------------------------------------
   Multi-row INSERT ... ON CONFLICT DO NOTHING (the codec convention)
   ---------------------------------------------------------------- -/

/-- One row of a multi-row `INSERT ... ON CONFLICT DO NOTHING`: the row is
skipped when its primary key is already present, either in the table or
earlier in the same statement; otherwise it is appended and counted in
`rows_affected`. -/
def insStep {ρ κ : Type} [DecidableEq κ] (key : ρ → κ)
    (acc : List ρ × Nat) (r : ρ) : List ρ × Nat :=
  if key r ∈ acc.1.map key then acc else (acc.1 ++ [r], acc.2 + 1)

/-- Multi-row `INSERT ... VALUES (...),(...) ON CONFLICT DO NOTHING` against a
keyed table, returning the new table contents and the reported
`rows_affected`. -/
def insertOnConflictDoNothing {ρ κ : Type} [DecidableEq κ] (key : ρ → κ)
    (rows : List ρ) (table : List ρ) : List ρ × Nat :=
  rows.foldl (insStep key) (table, 0)

/-- Bulk insert into `blocks` (conflict target: primary key `hash`). -/
def insert_blocks (rows : List Block) (table : List Block) : List Block × Nat :=
  insertOnConflictDoNothing Block.hash rows table

/-- Bulk insert into `block_parent` (conflict target: composite primary key). -/
def insert_block_parents (rows : List BlockParent) (table : List BlockParent) :
    List BlockParent × Nat :=
  insertOnConflictDoNothing (fun r => (r.block_hash, r.parent_hash)) rows table

/-- Bulk insert into `transactions` (conflict target: primary key
`transaction_id`). -/
def insert_transactions (rows : List Transaction) (table : List Transaction) :
    List Transaction × Nat :=
  insertOnConflictDoNothing Transaction.transaction_id rows table

/-- Bulk insert into `transactions_inputs` (conflict target: primary key
`(transaction_id, index)`). -/
def insert_transaction_inputs (rows : List TransactionInput)
    (table : List TransactionInput) : List TransactionInput × Nat :=
  insertOnConflictDoNothing (fun r => (r.transaction_id, r.index)) rows table

/-- Bulk insert into `transactions_outputs` (conflict target: primary key
`(transaction_id, index)`). -/
def insert_transaction_outputs (rows : List TransactionOutput)
    (table : List TransactionOutput) : List TransactionOutput × Nat :=
  insertOnConflictDoNothing (fun r => (r.transaction_id, r.index)) rows table

/-- Bulk insert into `blocks_transactions` (conflict target: composite primary
key). -/
def insert_block_transactions (rows : List BlockTransaction)
    (table : List BlockTransaction) : List BlockTransaction × Nat :=
  insertOnConflictDoNothing (fun r => (r.block_hash, r.transaction_id)) rows table

/-- Bulk insert into `addresses_transactions` (conflict target: primary key
`(address, transaction_id, block_time)`). -/
def insert_address_transactions (rows : List AddressTransaction)
    (table : List AddressTransaction) : List AddressTransaction × Nat :=
  insertOnConflictDoNothing (fun r => (r.address, r.transaction_id, r.block_time))
    rows table

/-- Bulk insert into `scripts_transactions` (conflict target: primary key
`(script_public_key, transaction_id, block_time)`). -/
def insert_script_transactions (rows : List ScriptTransaction)
    (table : List ScriptTransaction) : List ScriptTransaction × Nat :=
  insertOnConflictDoNothing
    (fun r => (r.script_public_key, r.transaction_id, r.block_time)) rows table

/-- Bulk insert into `transactions_acceptances` (conflict target: the unique
constraint on `transaction_id`; the DDL itself lives in migrations outside the
sources, the uniqueness of `transaction_id` is the documented schema contract). -/
def insert_transaction_acceptances (rows : List TransactionAcceptance)
    (table : List TransactionAcceptance) : List TransactionAcceptance × Nat :=
  insertOnConflictDoNothing TransactionAcceptance.transaction_id rows table

/- Idempotence lemmas for the ON CONFLICT DO NOTHING fold. -/

theorem insStep_fst_key_mem {ρ κ : Type} [DecidableEq κ] (key : ρ → κ)
    (acc : List ρ × Nat) (r : ρ) (k : κ) (h : k ∈ acc.1.map key) :
    k ∈ (insStep key acc r).1.map key := by
  unfold insStep
  split
  · exact h
  · simpa using Or.inl h

theorem foldl_insStep_key_mono {ρ κ : Type} [DecidableEq κ] (key : ρ → κ)
    (rows : List ρ) (acc : List ρ × Nat) (k : κ) (h : k ∈ acc.1.map key) :
    k ∈ (rows.foldl (insStep key) acc).1.map key := by
  induction rows generalizing acc with
  | nil => simpa using h
  | cons r rs ih =>
    simp only [List.foldl_cons]
    exact ih (insStep key acc r) (insStep_fst_key_mem key acc r k h)

theorem foldl_insStep_inserts {ρ κ : Type} [DecidableEq κ] (key : ρ → κ)
    (rows : List ρ) (acc : List ρ × Nat) (r : ρ) (h : r ∈ rows) :
    key r ∈ (rows.foldl (insStep key) acc).1.map key := by
  induction rows generalizing acc with
  | nil => simp at h
  | cons x xs ih =>
    simp only [List.foldl_cons]
    rcases List.mem_cons.mp h with h | h
    · subst h
      apply foldl_insStep_key_mono
      unfold insStep
      split
      · assumption
      · simp
    · exact ih (insStep key acc x) h

theorem foldl_insStep_noop {ρ κ : Type} [DecidableEq κ] (key : ρ → κ)
    (rows : List ρ) (t : List ρ) (c : Nat)
    (h : ∀ r ∈ rows, key r ∈ t.map key) :
    rows.foldl (insStep key) (t, c) = (t, c) := by
  induction rows with
  | nil => rfl
  | cons r rs ih =>
    simp only [List.foldl_cons]
    have hr : key r ∈ t.map key := h r (by simp)
    have hstep : insStep key (t, c) r = (t, c) := by
      unfold insStep
      simp [hr]
    rw [hstep]
    exact ih (fun x hx => h x (by simp [hx]))

theorem insertOnConflictDoNothing_idem {ρ κ : Type} [DecidableEq κ] (key : ρ → κ)
    (rows : List ρ) (t : List ρ) :
    insertOnConflictDoNothing key rows
        (insertOnConflictDoNothing key rows t).1 =
      ((insertOnConflictDoNothing key rows t).1, 0) := by
  unfold insertOnConflictDoNothing
  exact foldl_insStep_noop key rows _ 0
    (fun r hr => foldl_insStep_inserts key rows (t, 0) r hr)

/-- C2: every bulk insert operation of the persistence codec (blocks, block
parents, transactions, inputs, outputs, block-transactions, address- and
script-transactions, acceptances) is idempotent: applying the same
`INSERT ... ON CONFLICT DO NOTHING` a second time, to the store state produced
by the first application (which therefore already contains all the inserted
primary keys), reports zero rows affected and leaves the store unchanged. -/
theorem bulk_inserts_idempotent :
    (∀ rows t, insert_blocks rows (insert_blocks rows t).1 =
        ((insert_blocks rows t).1, 0)) ∧
    (∀ rows t, insert_block_parents rows (insert_block_parents rows t).1 =
        ((insert_block_parents rows t).1, 0)) ∧
    (∀ rows t, insert_transactions rows (insert_transactions rows t).1 =
        ((insert_transactions rows t).1, 0)) ∧
    (∀ rows t, insert_transaction_inputs rows (insert_transaction_inputs rows t).1 =
        ((insert_transaction_inputs rows t).1, 0)) ∧
    (∀ rows t, insert_transaction_outputs rows (insert_transaction_outputs rows t).1 =
        ((insert_transaction_outputs rows t).1, 0)) ∧
    (∀ rows t, insert_block_transactions rows (insert_block_transactions rows t).1 =
        ((insert_block_transactions rows t).1, 0)) ∧
    (∀ rows t, insert_address_transactions rows (insert_address_transactions rows t).1 =
        ((insert_address_transactions rows t).1, 0)) ∧
    (∀ rows t, insert_script_transactions rows (insert_script_transactions rows t).1 =
        ((insert_script_transactions rows t).1, 0)) ∧
    (∀ rows t, insert_transaction_acceptances rows
        (insert_transaction_acceptances rows t).1 =
        ((insert_transaction_acceptances rows t).1, 0)) := by
  refine ⟨?_, ?_, ?_, ?_, ?_, ?_, ?_, ?_, ?_⟩ <;>
    intro rows t <;>
    apply insertOnConflictDoNothing_idem

/- ----------------------------------------------------------------
   Subnetwork registration (client/query/insert.rs::insert_subnetwork and
   transactions/process_transactions.rs lines 98-108)
   ---------------------------------------------------------------- -/

/-- Store state of the `subnetworks` table: the serial `id` sequence and the
rows `(id, subnetwork_id)`. -/
structure SubnetworksTable where
  next_id : Int
  rows : List (Int × String)
deriving DecidableEq

/-- Errors surfaced by the sqlx query layer that matter here. -/
inductive SqlxError
  | RowNotFound
deriving DecidableEq

/-- Embedding of `insert_subnetwork`:
`INSERT INTO subnetworks (subnetwork_id) VALUES ($1) ON CONFLICT DO NOTHING
RETURNING id` executed with `fetch_one`.  When no row with this
`subnetwork_id` exists, a row is inserted and its fresh serial key returned;
when one exists, `DO NOTHING` suppresses the insert, the statement returns no
row, and `fetch_one` yields `RowNotFound`. -/
def insert_subnetwork (subnetwork_id : String) (t : SubnetworksTable) :
    Except SqlxError (Int × SubnetworksTable) :=
  if t.rows.any (fun r => r.2 == subnetwork_id) then
    .error .RowNotFound
  else
    .ok (t.next_id, ⟨t.next_id + 1, t.rows ++ [(t.next_id, subnetwork_id)]⟩)

/-- Subnetwork resolution step of the Transaction Processor: look the textual
id up in the in-memory `SubnetworkMap`; on a miss call `insert_subnetwork` and
cache the returned key.  `none` models the panic of
`.expect("Insert subnetwork FAILED")` when the database call errors. -/
def resolveSubnetwork (subnetwork_map : List (String × Int)) (db : SubnetworksTable)
    (subnetwork_id : String) : Option (Int × List (String × Int) × SubnetworksTable) :=
  match subnetwork_map.find? (fun p => p.1 == subnetwork_id) with
  | some p => some (p.2, subnetwork_map, db)
  | none =>
    match insert_subnetwork subnetwork_id db with
    | .ok (k, db') => some (k, subnetwork_map ++ [(subnetwork_id, k)], db')
    | .error _ => none

/-- C10: `insert_subnetwork` inserts and returns a fresh key when the
subnetwork id is absent; when a row with that id already exists, the
`ON CONFLICT DO NOTHING` insert returns no row so the call errors instead of
returning the existing key; consequently the Transaction Processor panics
(modelled as `none`) whenever it resolves a subnetwork that is already
persisted but missing from its in-memory map. -/
theorem insert_subnetwork_conflict_behaviour
    (sid : String) (t : SubnetworksTable) (m : List (String × Int)) :
    ((∀ r ∈ t.rows, r.2 ≠ sid) →
      insert_subnetwork sid t =
        .ok (t.next_id, ⟨t.next_id + 1, t.rows ++ [(t.next_id, sid)]⟩)) ∧
    ((∃ r ∈ t.rows, r.2 = sid) →
      insert_subnetwork sid t = .error .RowNotFound) ∧
    (m.find? (fun p => p.1 == sid) = none → (∃ r ∈ t.rows, r.2 = sid) →
      resolveSubnetwork m t sid = none) := by
  have hany : (t.rows.any (fun r => r.2 == sid) = true) ↔ ∃ r ∈ t.rows, r.2 = sid := by
    simp [List.any_eq_true]
  refine ⟨?_, ?_, ?_⟩
  · intro h
    have : t.rows.any (fun r => r.2 == sid) = false := by
      rcases hb : t.rows.any (fun r => r.2 == sid) with _ | _
      · rfl
      · rcases hany.mp hb with ⟨r, hr, hrs⟩
        exact absurd hrs (h r hr)
    unfold insert_subnetwork
    simp [this]
  · intro h
    unfold insert_subnetwork
    simp [hany.mpr h]
  · intro hm h
    unfold resolveSubnetwork
    rw [hm]
    unfold insert_subnetwork
    simp [hany.mpr h]

/-- Witness for C10 at concrete inputs: with the subnetwork `"s"` already in
the store but absent from the map, the insert errors and the processor step
panics; with a fresh id `"u"` the insert succeeds with the next serial key. -/
theorem insert_subnetwork_conflict_behaviour_witness :
    insert_subnetwork "s" ⟨2, [(1, "s")]⟩ = .error .RowNotFound ∧
    resolveSubnetwork [] ⟨2, [(1, "s")]⟩ "s" = none ∧
    insert_subnetwork "u" ⟨2, [(1, "s")]⟩ = .ok (2, ⟨3, [(1, "s"), (2, "u")]⟩) :=
  ⟨(insert_subnetwork_conflict_behaviour "s" ⟨2, [(1, "s")]⟩ []).2.1
      ⟨(1, "s"), by decide, rfl⟩,
   (insert_subnetwork_conflict_behaviour "s" ⟨2, [(1, "s")]⟩ []).2.2 (by decide)
      ⟨(1, "s"), by decide, rfl⟩,
   (insert_subnetwork_conflict_behaviour "u" ⟨2, [(1, "s")]⟩ []).1 (by decide)⟩

/- ----------------------------------------------------------------
   Transaction Processor (indexer/src/transactions/process_transactions.rs,
   mapper functions from mapping/src/mapper/transactions.rs)
   ---------------------------------------------------------------- -/

/-- Input of an RPC transaction: previous outpoint (hash, index), signature
script bytes, sigop count. -/
structure RpcInput where
  previous_outpoint_hash : Hash
  previous_outpoint_index : Int
  signature_script : List Nat
  sig_op_count : Int
deriving DecidableEq

/-- Output of an RPC transaction: value, script bytes, decoded address. -/
structure RpcOutput where
  value : Int
  script_public_key : List Nat
  script_public_key_address : String
deriving DecidableEq

/-- An RPC transaction together with the verbose data used by the mappers. -/
structure RpcTransaction where
  subnetwork_id : String
  transaction_id : Hash
  hash : Hash
  compute_mass : Int
  payload : List Nat
  block_hash : Hash
  block_time : Int
  inputs : List RpcInput
  outputs : List RpcOutput
deriving DecidableEq

/-- Field-inclusion flags of the mapper (driven by `exclude_fields`). -/
structure KaspaDbMapper where
  include_hash : Bool
  include_mass : Bool
  include_payload : Bool
  include_signature_script : Bool
  include_sig_op_count : Bool
  include_script_public_key_address : Bool
deriving DecidableEq

/-- Embedding of `map_transaction`. -/
def map_transaction (m : KaspaDbMapper) (subnetwork_key : Int)
    (tx : RpcTransaction) : Transaction :=
  { transaction_id := tx.transaction_id
    subnetwork_id := subnetwork_key
    hash := if m.include_hash then some tx.hash else none
    mass := if m.include_mass && tx.compute_mass != 0 then some tx.compute_mass else none
    payload := if m.include_payload && tx.payload.length > 0 then some tx.payload else none
    block_time := tx.block_time }

/-- Embedding of `map_block_transaction`. -/
def map_block_transaction (tx : RpcTransaction) : BlockTransaction :=
  { block_hash := tx.block_hash, transaction_id := tx.transaction_id }

/-- Embedding of `map_transaction_inputs` (index by position). -/
def map_transaction_inputs (m : KaspaDbMapper) (tx : RpcTransaction) :
    List TransactionInput :=
  tx.inputs.enum.map (fun p =>
    { transaction_id := tx.transaction_id
      index := (p.1 : Int)
      previous_outpoint_hash := p.2.previous_outpoint_hash
      previous_outpoint_index := p.2.previous_outpoint_index
      signature_script := if m.include_signature_script then some p.2.signature_script else none
      sig_op_count := if m.include_sig_op_count then some p.2.sig_op_count else none })

/-- Embedding of `map_transaction_outputs` (index by position). -/
def map_transaction_outputs (m : KaspaDbMapper) (tx : RpcTransaction) :
    List TransactionOutput :=
  tx.outputs.enum.map (fun p =>
    { transaction_id := tx.transaction_id
      index := (p.1 : Int)
      amount := p.2.value
      script_public_key := p.2.script_public_key
      script_public_key_address :=
        if m.include_script_public_key_address then some p.2.script_public_key_address
        else none })

/-- Embedding of `map_transaction_outputs_address`. -/
def map_transaction_outputs_address (tx : RpcTransaction) : List AddressTransaction :=
  tx.outputs.map (fun o =>
    { address := o.script_public_key_address
      transaction_id := tx.transaction_id
      block_time := tx.block_time })

/-- Embedding of `map_transaction_outputs_script`. -/
def map_transaction_outputs_script (tx : RpcTransaction) : List ScriptTransaction :=
  tx.outputs.map (fun o =>
    { script_public_key := o.script_public_key
      transaction_id := tx.transaction_id
      block_time := tx.block_time })

/-- Extension of an `IndexSet` buffer: each element is appended once, elements
already present are skipped. -/
def indexSetExtend {α : Type} [DecidableEq α] (buf : List α) (new : List α) : List α :=
  new.foldl (fun acc x => if x ∈ acc then acc else acc ++ [x]) buf

/-- Configuration flags read by the Transaction Processor loop. -/
structure TxProcConfig where
  disable_address_transactions : Bool
  exclude_tx_out_script_public_key_address : Bool
  exclude_tx_out_script_public_key : Bool
deriving DecidableEq

/-- Capacity of the TTL de-duplication cache of seen transaction ids
(`net_tps_max as u64 * ttl * 2`, process_transactions.rs line 42). -/
def txIdCacheSize (net_tps_max cache_ttl : Nat) : Nat :=
  net_tps_max * cache_ttl * 2

/-- Local state of the Transaction Processor between flushes: the subnetwork
map and table, the TTL cache of seen transaction ids (membership view; expiry
is a wall-clock concern abstracted away), and the per-flush row buffers. -/
structure TxProcState where
  subnetwork_map : List (String × Int)
  subnetworks : SubnetworksTable
  tx_id_cache : List Hash
  transactions : List Transaction
  block_tx : List BlockTransaction
  tx_inputs : List TransactionInput
  tx_outputs : List TransactionOutput
  tx_address_transactions : List AddressTransaction
  tx_script_transactions : List ScriptTransaction
deriving DecidableEq

/-- Embedding of the per-transaction body of the Transaction Processor loop
(process_transactions.rs lines 98-127): resolve the subnetwork key, then —
when the transaction id is already in the TTL cache — record only the
BlockTransaction edge; otherwise buffer the mapped transaction, its inputs,
outputs and address/script rows, insert the id into the cache, and record the
BlockTransaction edge.  `none` models the subnetwork-insert panic. -/
def processRpcTransaction (cfg : TxProcConfig) (m : KaspaDbMapper)
    (st : TxProcState) (tx : RpcTransaction) : Option TxProcState :=
  match resolveSubnetwork st.subnetwork_map st.subnetworks tx.subnetwork_id with
  | none => none
  | some (subnetwork_key, map', db') =>
    if tx.transaction_id ∈ st.tx_id_cache then
      some { st with
        subnetwork_map := map'
        subnetworks := db'
        block_tx := st.block_tx ++ [map_block_transaction tx] }
    else
      some { st with
        subnetwork_map := map'
        subnetworks := db'
        transactions := st.transactions ++ [map_transaction m subnetwork_key tx]
        tx_inputs := st.tx_inputs ++ map_transaction_inputs m tx
        tx_outputs := st.tx_outputs ++ map_transaction_outputs m tx
        tx_address_transactions :=
          if !cfg.disable_address_transactions
              && !cfg.exclude_tx_out_script_public_key_address then
            indexSetExtend st.tx_address_transactions (map_transaction_outputs_address tx)
          else st.tx_address_transactions
        tx_script_transactions :=
          if !cfg.disable_address_transactions
              && cfg.exclude_tx_out_script_public_key_address
              && !cfg.exclude_tx_out_script_public_key then
            indexSetExtend st.tx_script_transactions (map_transaction_outputs_script tx)
          else st.tx_script_transactions
        tx_id_cache := st.tx_id_cache ++ [tx.transaction_id]
        block_tx := st.block_tx ++ [map_block_transaction tx] }

theorem processRpcTransaction_cached (cfg : TxProcConfig) (m : KaspaDbMapper)
    (st st1 : TxProcState) (tx : RpcTransaction)
    (hc : tx.transaction_id ∈ st.tx_id_cache)
    (h : processRpcTransaction cfg m st tx = some st1) :
    st1.transactions = st.transactions ∧
    st1.tx_inputs = st.tx_inputs ∧
    st1.tx_outputs = st.tx_outputs ∧
    st1.tx_address_transactions = st.tx_address_transactions ∧
    st1.tx_script_transactions = st.tx_script_transactions ∧
    st1.tx_id_cache = st.tx_id_cache ∧
    st1.block_tx = st.block_tx ++ [map_block_transaction tx] := by
  unfold processRpcTransaction at h
  rcases hres : resolveSubnetwork st.subnetwork_map st.subnetworks tx.subnetwork_id with
    _ | ⟨k, map', db'⟩
  · rw [hres] at h
    simp at h
  · rw [hres] at h
    dsimp only at h
    rw [if_pos hc] at h
    simp only [Option.some.injEq] at h
    subst h
    simp

theorem processRpcTransaction_fresh (cfg : TxProcConfig) (m : KaspaDbMapper)
    (st st1 : TxProcState) (tx : RpcTransaction)
    (hc : tx.transaction_id ∉ st.tx_id_cache)
    (h : processRpcTransaction cfg m st tx = some st1) :
    (∃ k, st1.transactions = st.transactions ++ [map_transaction m k tx]) ∧
    st1.tx_id_cache = st.tx_id_cache ++ [tx.transaction_id] ∧
    st1.block_tx = st.block_tx ++ [map_block_transaction tx] := by
  unfold processRpcTransaction at h
  rcases hres : resolveSubnetwork st.subnetwork_map st.subnetworks tx.subnetwork_id with
    _ | ⟨k, map', db'⟩
  · rw [hres] at h
    simp at h
  · rw [hres] at h
    dsimp only at h
    rw [if_neg hc] at h
    simp only [Option.some.injEq] at h
    subst h
    exact ⟨⟨k, rfl⟩, rfl, rfl⟩

/-- C8: a transaction whose id is in the TTL cache contributes only its
BlockTransaction edge — no transaction, input, output or address/script rows
are buffered again — and hence the same transaction arriving in two blocks B1
and B2 yields exactly one buffered Transaction row and the two BlockTransaction
edges (B1,T) and (B2,T). -/
theorem tx_dedup_cache_skips_all_but_block_relation :
    (∀ (cfg : TxProcConfig) (m : KaspaDbMapper) (st st1 : TxProcState)
        (tx : RpcTransaction),
      tx.transaction_id ∈ st.tx_id_cache →
      processRpcTransaction cfg m st tx = some st1 →
      st1.transactions = st.transactions ∧
      st1.tx_inputs = st.tx_inputs ∧
      st1.tx_outputs = st.tx_outputs ∧
      st1.tx_address_transactions = st.tx_address_transactions ∧
      st1.tx_script_transactions = st.tx_script_transactions ∧
      st1.block_tx = st.block_tx ++ [map_block_transaction tx]) ∧
    (∀ (cfg : TxProcConfig) (m : KaspaDbMapper) (st st1 st2 : TxProcState)
        (tx1 tx2 : RpcTransaction),
      tx2.transaction_id = tx1.transaction_id →
      tx1.transaction_id ∉ st.tx_id_cache →
      processRpcTransaction cfg m st tx1 = some st1 →
      processRpcTransaction cfg m st1 tx2 = some st2 →
      st2.transactions.length = st.transactions.length + 1 ∧
      st2.block_tx = st.block_tx ++ [map_block_transaction tx1, map_block_transaction tx2]) := by
  constructor
  · intro cfg m st st1 tx hc h
    have := processRpcTransaction_cached cfg m st st1 tx hc h
    exact ⟨this.1, this.2.1, this.2.2.1, this.2.2.2.1, this.2.2.2.2.1, this.2.2.2.2.2.2⟩
  · intro cfg m st st1 st2 tx1 tx2 hid hc h1 h2
    obtain ⟨⟨k, htx⟩, hcache, hbt⟩ :=
      processRpcTransaction_fresh cfg m st st1 tx1 hc h1
    have hc2 : tx2.transaction_id ∈ st1.tx_id_cache := by
      rw [hcache, hid]
      simp
    have hstep2 := processRpcTransaction_cached cfg m st1 st2 tx2 hc2 h2
    constructor
    · rw [hstep2.1, htx]
      simp
    · rw [hstep2.2.2.2.2.2.2, hbt]
      simp

/-- Witness for C8: a concrete transaction with id 7 arriving in block 1 and
again in block 2, starting from an empty state with its subnetwork already
mapped, buffers one Transaction row and two BlockTransaction edges. -/
theorem tx_dedup_cache_skips_all_but_block_relation_witness :
    (processRpcTransaction ⟨true, false, false⟩
        ⟨false, false, false, false, false, false⟩
        ⟨[("s", 0)], ⟨1, [(0, "s")]⟩, [], [], [], [], [], [], []⟩
        ⟨"s", 7, 7, 0, [], 1, 0, [], []⟩ =
      some ⟨[("s", 0)], ⟨1, [(0, "s")]⟩, [7],
        [⟨7, 0, none, none, none, 0⟩], [⟨1, 7⟩], [], [], [], []⟩) ∧
    (processRpcTransaction ⟨true, false, false⟩
        ⟨false, false, false, false, false, false⟩
        ⟨[("s", 0)], ⟨1, [(0, "s")]⟩, [7],
          [⟨7, 0, none, none, none, 0⟩], [⟨1, 7⟩], [], [], [], []⟩
        ⟨"s", 7, 7, 0, [], 2, 0, [], []⟩ =
      some ⟨[("s", 0)], ⟨1, [(0, "s")]⟩, [7],
        [⟨7, 0, none, none, none, 0⟩], [⟨1, 7⟩, ⟨2, 7⟩], [], [], [], []⟩) ∧
    ([⟨7, 0, none, none, none, 0⟩] : List Transaction).length = ([] : List Transaction).length + 1 ∧
    ([⟨1, 7⟩, ⟨2, 7⟩] : List BlockTransaction) =
      [] ++ [map_block_transaction ⟨"s", 7, 7, 0, [], 1, 0, [], []⟩,
             map_block_transaction ⟨"s", 7, 7, 0, [], 2, 0, [], []⟩] := by
  refine ⟨by decide, by decide, ?_⟩
  exact tx_dedup_cache_skips_all_but_block_relation.2
    ⟨true, false, false⟩ ⟨false, false, false, false, false, false⟩
    ⟨[("s", 0)], ⟨1, [(0, "s")]⟩, [], [], [], [], [], [], []⟩
    ⟨[("s", 0)], ⟨1, [(0, "s")]⟩, [7],
      [⟨7, 0, none, none, none, 0⟩], [⟨1, 7⟩], [], [], [], []⟩
    ⟨[("s", 0)], ⟨1, [(0, "s")]⟩, [7],
      [⟨7, 0, none, none, none, 0⟩], [⟨1, 7⟩, ⟨2, 7⟩], [], [], [], []⟩
    ⟨"s", 7, 7, 0, [], 1, 0, [], []⟩ ⟨"s", 7, 7, 0, [], 2, 0, [], []⟩
    rfl (by decide) (by decide) (by decide)

/- ----------------------------------------------------------------
   Block Processor pre-VCP acceptance purge
   (indexer/src/blocks/process_blocks.rs lines 120-151)
   ---------------------------------------------------------------- -/

/-- Threshold of consecutive no-op acceptance deletes before VCP is started. -/
def NOOP_DELETES_BEFORE_VCP : Nat := 10

/-- Predicate of `DELETE FROM transactions_acceptances WHERE block_hash = ANY($1)`:
a row matches when its (nullable) `block_hash` is one of the given hashes. -/
def acceptanceMatchesBlocks (hashes : List Hash) (a : TransactionAcceptance) : Bool :=
  match a.block_hash with
  | some h => decide (h ∈ hashes)
  | none => false

/-- Configuration flags read by the Block Processor flush path. -/
structure BlockProcConfig where
  disable_virtual_chain_processing : Bool
  disable_vcp_wait_for_sync : Bool
deriving DecidableEq

/-- State of the Block Processor across flushes, together with the
`transactions_acceptances` table it deletes from.  `start_vcp` is the shared
write-once flag, `vcp_started` the processor-local mirror. -/
structure BlockProcState where
  first_block : Bool
  vcp_started : Bool
  noop_delete_count : Nat
  start_vcp : Bool
  acceptances : List TransactionAcceptance
deriving DecidableEq

/-- Initial Block Processor state over a given acceptance table. -/
def blockProcInit (acceptances : List TransactionAcceptance) : BlockProcState :=
  { first_block := true, vcp_started := false, noop_delete_count := 0,
    start_vcp := false, acceptances := acceptances }

/-- One flush of the Block Processor: the batch's checkpoint-block hashes in
arrival order, the `synced` flag of the last popped `BlockData`, and the
acceptance rows written concurrently (by VCP or the UTXO importer) since the
previous flush. -/
structure FlushEvent where
  batch : List Hash
  synced : Bool
  new_acceptances : List TransactionAcceptance
deriving DecidableEq

/-- Hashes passed to the acceptance delete of a flush: the batch, skipping its
first element while `first_block` is still set
(`checkpoint_blocks.iter().skip(first_block as usize)`). -/
def flushDeleteHashes (s : BlockProcState) (e : FlushEvent) : List Hash :=
  if s.first_block then e.batch.drop 1 else e.batch

/-- Number of acceptance rows the flush's delete removes (`tas_deleted`). -/
def flushTasDeleted (s : BlockProcState) (e : FlushEvent) : Nat :=
  ((s.acceptances ++ e.new_acceptances).filter
    (acceptanceMatchesBlocks (flushDeleteHashes s e))).length

/-- Result of one flush: the successor state and the hash list handed to the
acceptance delete, when one was issued. -/
structure FlushResult where
  state : BlockProcState
  deleted : Option (List Hash)
deriving DecidableEq

/-- Embedding of the flush path of `process_blocks` (lines 120-151): while VCP
has not been started (and virtual-chain processing is enabled) delete the
acceptance rows of the batch's hashes (minus the first-seen block), count
consecutive zero-row deletes — counting only when synced or when
VCP-wait-for-sync is disabled, resetting otherwise — and once the count
reaches `NOOP_DELETES_BEFORE_VCP`, set the write-once `start_vcp` flag. -/
def blockProcFlush (cfg : BlockProcConfig) (s : BlockProcState) (e : FlushEvent) :
    FlushResult :=
  let acceptances := s.acceptances ++ e.new_acceptances
  if !s.vcp_started && !cfg.disable_virtual_chain_processing then
    let delete_hashes := flushDeleteHashes s e
    let tas_deleted := (acceptances.filter (acceptanceMatchesBlocks delete_hashes)).length
    let acceptances := acceptances.filter (fun a => !acceptanceMatchesBlocks delete_hashes a)
    let noop_delete_count :=
      if (cfg.disable_vcp_wait_for_sync || e.synced) && tas_deleted == 0 then
        s.noop_delete_count + 1
      else 0
    let started := NOOP_DELETES_BEFORE_VCP ≤ noop_delete_count
    { state :=
        { first_block := false
          vcp_started := started
          noop_delete_count := noop_delete_count
          start_vcp := s.start_vcp || started
          acceptances := acceptances }
      deleted := some delete_hashes }
  else
    { state := { s with acceptances := acceptances }, deleted := none }

/-- Run of the Block Processor over a sequence of flushes: final state and the
per-flush delete actions. -/
def runFlushes (cfg : BlockProcConfig) (s : BlockProcState) :
    List FlushEvent → BlockProcState × List (Option (List Hash))
  | [] => (s, [])
  | e :: es =>
    let r := blockProcFlush cfg s e
    let rest := runFlushes cfg r.state es
    (rest.1, r.deleted :: rest.2)

theorem blockProcFlush_not_started (cfg : BlockProcConfig) (s : BlockProcState)
    (e : FlushEvent) (hv : cfg.disable_virtual_chain_processing = false)
    (hs : s.vcp_started = false) :
    (blockProcFlush cfg s e).deleted = some (flushDeleteHashes s e) ∧
    (blockProcFlush cfg s e).state.noop_delete_count =
      (if (cfg.disable_vcp_wait_for_sync || e.synced) && flushTasDeleted s e == 0 then
        s.noop_delete_count + 1
      else 0) ∧
    ((blockProcFlush cfg s e).state.vcp_started = true ↔
      NOOP_DELETES_BEFORE_VCP ≤ (blockProcFlush cfg s e).state.noop_delete_count) ∧
    ((blockProcFlush cfg s e).state.start_vcp = true ↔
      s.start_vcp = true ∨
        NOOP_DELETES_BEFORE_VCP ≤ (blockProcFlush cfg s e).state.noop_delete_count) := by
  unfold blockProcFlush
  rw [hv, hs]
  simp only [Bool.not_false, Bool.and_self, if_true, flushTasDeleted]
  refine ⟨trivial, trivial, ?_, ?_⟩
  · simp [decide_eq_true_eq]
  · simp [Bool.or_eq_true, decide_eq_true_eq]

theorem blockProcFlush_started (cfg : BlockProcConfig) (s : BlockProcState)
    (e : FlushEvent) (hs : s.vcp_started = true) :
    (blockProcFlush cfg s e).deleted = none ∧
    (blockProcFlush cfg s e).state.vcp_started = true ∧
    (blockProcFlush cfg s e).state.start_vcp = s.start_vcp := by
  unfold blockProcFlush
  rw [hs]
  simp

theorem blockProcFlush_start_vcp_mono (cfg : BlockProcConfig) (s : BlockProcState)
    (e : FlushEvent) (h : s.start_vcp = true) :
    (blockProcFlush cfg s e).state.start_vcp = true := by
  unfold blockProcFlush
  split
  · simp [h]
  · simpa using h

theorem runFlushes_no_deletes_after_started (cfg : BlockProcConfig)
    (s : BlockProcState) (es : List FlushEvent) (hs : s.vcp_started = true) :
    ∀ d ∈ (runFlushes cfg s es).2, d = none := by
  induction es generalizing s with
  | nil => simp [runFlushes]
  | cons e es ih =>
    intro d hd
    have hstep := blockProcFlush_started cfg s e hs
    simp only [runFlushes, List.mem_cons] at hd
    rcases hd with hd | hd
    · rw [hd]
      exact hstep.1
    · exact ih (blockProcFlush cfg s e).state hstep.2.1 d hd

/-- C5: until VCP has been started, every flush (with virtual-chain processing
enabled) deletes the acceptance rows of the batch's hashes minus the first-seen
block; the no-op counter increments exactly on zero-row deletes while synced
(or with VCP-wait-for-sync disabled) and resets otherwise; `start_vcp` is set
exactly when the counter reaches `NOOP_DELETES_BEFORE_VCP = 10`; the flag is
write-once, and once VCP is started no flush of the remaining run ever issues
an acceptance delete again. -/
theorem pre_vcp_acceptance_purge (cfg : BlockProcConfig) (s : BlockProcState)
    (e : FlushEvent) (es : List FlushEvent)
    (hv : cfg.disable_virtual_chain_processing = false) :
    (s.vcp_started = false →
      (blockProcFlush cfg s e).deleted = some (flushDeleteHashes s e) ∧
      (blockProcFlush cfg s e).state.noop_delete_count =
        (if (cfg.disable_vcp_wait_for_sync || e.synced) && flushTasDeleted s e == 0 then
          s.noop_delete_count + 1
        else 0) ∧
      ((blockProcFlush cfg s e).state.start_vcp = true ↔
        s.start_vcp = true ∨
          NOOP_DELETES_BEFORE_VCP ≤ (blockProcFlush cfg s e).state.noop_delete_count)) ∧
    (s.start_vcp = true → (blockProcFlush cfg s e).state.start_vcp = true) ∧
    (s.vcp_started = true →
      (blockProcFlush cfg s e).deleted = none ∧
      (blockProcFlush cfg s e).state.vcp_started = true) ∧
    (s.vcp_started = true → ∀ d ∈ (runFlushes cfg s es).2, d = none) := by
  refine ⟨?_, ?_, ?_, ?_⟩
  · intro hs
    have h := blockProcFlush_not_started cfg s e hv hs
    exact ⟨h.1, h.2.1, h.2.2.2⟩
  · exact blockProcFlush_start_vcp_mono cfg s e
  · intro hs
    have h := blockProcFlush_started cfg s e hs
    exact ⟨h.1, h.2.1⟩
  · exact runFlushes_no_deletes_after_started cfg s es

/-- Witness for C5 at concrete inputs: a flush at counter 9, synced, with an
empty acceptance table performs the delete, reaches counter 10 and raises
`start_vcp`. -/
theorem pre_vcp_acceptance_purge_witness :
    (blockProcFlush ⟨false, false⟩
        ⟨false, false, 9, false, []⟩ ⟨[5], true, []⟩).deleted = some [5] ∧
    (blockProcFlush ⟨false, false⟩
        ⟨false, false, 9, false, []⟩ ⟨[5], true, []⟩).state.noop_delete_count = 10 ∧
    ((blockProcFlush ⟨false, false⟩
        ⟨false, false, 9, false, []⟩ ⟨[5], true, []⟩).state.start_vcp = true ↔
      (false = true ∨ NOOP_DELETES_BEFORE_VCP ≤
        (blockProcFlush ⟨false, false⟩
          ⟨false, false, 9, false, []⟩ ⟨[5], true, []⟩).state.noop_delete_count)) := by
  have h := (pre_vcp_acceptance_purge ⟨false, false⟩
    ⟨false, false, 9, false, []⟩ ⟨[5], true, []⟩ [] rfl).1 rfl
  refine ⟨?_, ?_, ?_⟩
  · rw [h.1]
    decide
  · rw [h.2.1]
    decide
  · exact h.2.2

/- ----------------------------------------------------------------
   Vars table (indexer/src/vars.rs, database upsert_var)
   ---------------------------------------------------------------- -/

/-- Key of the block checkpoint Var. -/
def VAR_KEY_BLOCK_CHECKPOINT : String := "block_checkpoint"

/-- Key of the VCP checkpoint Var. -/
def VAR_KEY_VCP_CHECKPOINT : String := "vcp_checkpoint"

/-- Upsert of a key/value pair into the `vars` table. -/
def upsert_var (key value : String) (vars : List (String × String)) :
    List (String × String) :=
  if vars.any (fun p => p.1 == key) then
    vars.map (fun p => if p.1 == key then (key, value) else p)
  else vars ++ [(key, value)]

/-- Embedding of `save_block_checkpoint`: upsert of the hex-encoded hash under
the `block_checkpoint` key (called `save_checkpoint` at its use site in
checkpoint.rs). -/
def save_checkpoint (block_hash : String) (vars : List (String × String)) :
    List (String × String) :=
  upsert_var VAR_KEY_BLOCK_CHECKPOINT block_hash vars

/-- Embedding of `save_vcp_checkpoint`: upsert of the hex-encoded hash under
the `vcp_checkpoint` key.  Defined in vars.rs; its call sites (or absence
thereof) are what claim C7 is about. -/
def save_vcp_checkpoint (block_hash : String) (vars : List (String × String)) :
    List (String × String) :=
  upsert_var VAR_KEY_VCP_CHECKPOINT block_hash vars

/- ----------------------------------------------------------------
   Checkpoint coordinator (indexer/src/checkpoint.rs)
   ---------------------------------------------------------------- -/

/-- Origin tag of a checkpoint candidate. -/
inductive CheckpointOrigin
  | Blocks
  | Transactions
  | Vcp
  | Initial
deriving DecidableEq

/-- A checkpoint candidate block. -/
structure CheckpointBlock where
  origin : CheckpointOrigin
  hash : Hash
  timestamp : Nat
  daa_score : Nat
  blue_score : Nat
deriving DecidableEq

/-- One pop from the checkpoint queue, together with the value of the
`Instant` clock (in seconds since process start) at that iteration. -/
structure CheckpointEvent where
  block : CheckpointBlock
  now : Nat
deriving DecidableEq

/-- Configuration flags read by the checkpoint coordinator. -/
structure CheckpointConfig where
  disable_virtual_chain_processing : Bool
  disable_transaction_processing : Bool
  net_bps : Nat
deriving DecidableEq

/-- Seconds that must elapse between checkpoint saves. -/
def CHECKPOINT_SAVE_INTERVAL : Nat := 60

/-- Seconds between repeated warnings while synchronization is pending. -/
def CHECKPOINT_WARN_INTERVAL : Nat := 120

/-- Blue-score headroom (in seconds of blocks) after which a candidate is
declared failed. -/
def CHECKPOINT_FAILED_TIMEOUT : Nat := 600

/-- Mutable state of the `process_checkpoints` loop. -/
structure CheckpointState where
  checkpoint_last_saved : Nat
  checkpoint_last_warned : Nat
  checkpoint_candidate : Option CheckpointBlock
  last_block_blue_score : Nat
  last_tx_blue_score : Nat
  blocks_processed : List Hash
  txs_processed : List Hash
  cp_ok_blocks : Bool
  cp_ok_txs : Bool
deriving DecidableEq

/-- Initial coordinator state. -/
def checkpointInit : CheckpointState :=
  { checkpoint_last_saved := 0, checkpoint_last_warned := 0,
    checkpoint_candidate := none, last_block_blue_score := 0,
    last_tx_blue_score := 0, blocks_processed := [], txs_processed := [],
    cp_ok_blocks := false, cp_ok_txs := false }

/-- HashSet insert. -/
def insertIfAbsent (l : List Hash) (h : Hash) : List Hash :=
  if h ∈ l then l else l ++ [h]

/-- First half of the loop body: the `match checkpoint_block.origin` dispatch
(checkpoint.rs lines 61-94). -/
def checkpointPhase1 (cfg : CheckpointConfig) (s : CheckpointState)
    (e : CheckpointEvent) : CheckpointState :=
  match e.block.origin with
  | .Blocks =>
    let s := { s with last_block_blue_score := e.block.blue_score }
    if cfg.disable_virtual_chain_processing then
      if s.checkpoint_candidate.isNone
          ∧ CHECKPOINT_SAVE_INTERVAL < e.now - s.checkpoint_last_saved then
        { s with checkpoint_candidate := some e.block,
                 checkpoint_last_warned := e.now,
                 cp_ok_blocks := true, cp_ok_txs := false }
      else s
    else { s with blocks_processed := insertIfAbsent s.blocks_processed e.block.hash }
  | .Transactions =>
    { s with last_tx_blue_score := e.block.blue_score,
             txs_processed := insertIfAbsent s.txs_processed e.block.hash }
  | .Vcp =>
    if s.checkpoint_candidate.isNone
        ∧ CHECKPOINT_SAVE_INTERVAL < e.now - s.checkpoint_last_saved then
      { s with checkpoint_candidate := some e.block,
               checkpoint_last_warned := e.now,
               cp_ok_blocks := false, cp_ok_txs := false }
    else s
  | .Initial => s

/-- Confirmation of the candidate by the Blocks stage
(`!cp_ok_blocks && blocks_processed.contains(&checkpoint.hash)` latch). -/
def checkpointCandidateOkBlocks (s : CheckpointState) (c : CheckpointBlock) : Bool :=
  s.cp_ok_blocks || decide (c.hash ∈ s.blocks_processed)

/-- Confirmation of the candidate by the Transactions stage (short-circuited
when transaction processing is disabled). -/
def checkpointCandidateOkTxs (cfg : CheckpointConfig) (s : CheckpointState)
    (c : CheckpointBlock) : Bool :=
  s.cp_ok_txs ||
    (cfg.disable_transaction_processing || decide (c.hash ∈ s.txs_processed))

/-- Second half of the loop body, the `if let Some(checkpoint)` block
(checkpoint.rs lines 95-127): update the confirmation flags, clear the
seen-sets, then save / warn / fail / keep waiting.  The returned `Option Hash`
is the hash handed to `save_checkpoint`, when a save happens. -/
def checkpointPhase2 (cfg : CheckpointConfig) (now : Nat) (s1 : CheckpointState) :
    CheckpointState × Option Hash :=
  match s1.checkpoint_candidate with
  | none => (s1, none)
  | some c =>
    let okb := checkpointCandidateOkBlocks s1 c
    let okt := checkpointCandidateOkTxs cfg s1 c
    let s2 := { s1 with cp_ok_blocks := okb, cp_ok_txs := okt,
                        blocks_processed := [], txs_processed := [] }
    if okb && okt then
      ({ s2 with checkpoint_last_saved := now, checkpoint_candidate := none },
        some c.hash)
    else if CHECKPOINT_WARN_INTERVAL < now - s2.checkpoint_last_warned then
      ({ s2 with checkpoint_last_warned := now }, none)
    else if decide (c.blue_score + CHECKPOINT_FAILED_TIMEOUT * cfg.net_bps
            < s2.last_block_blue_score)
        && (cfg.disable_transaction_processing
            || decide (c.blue_score + CHECKPOINT_FAILED_TIMEOUT * cfg.net_bps
                < s2.last_tx_blue_score)) then
      ({ s2 with checkpoint_last_saved := now, checkpoint_candidate := none }, none)
    else (s2, none)

/-- One iteration of the `process_checkpoints` loop on a popped candidate. -/
def checkpointStep (cfg : CheckpointConfig) (s : CheckpointState)
    (e : CheckpointEvent) : CheckpointState × Option Hash :=
  checkpointPhase2 cfg e.now (checkpointPhase1 cfg s e)

/-- A hash has been reported by a given stage somewhere in a trace of
checkpoint-queue events. -/
def reportedBy (origin : CheckpointOrigin) (trace : List CheckpointEvent)
    (h : Hash) : Prop :=
  ∃ e ∈ trace, e.block.origin = origin ∧ e.block.hash = h

/-- Coordinator states reachable from the initial state, together with the
trace of events consumed. -/
inductive CheckpointReachable (cfg : CheckpointConfig) :
    CheckpointState → List CheckpointEvent → Prop
  | init : CheckpointReachable cfg checkpointInit []
  | step {s t e} : CheckpointReachable cfg s t →
      CheckpointReachable cfg (checkpointStep cfg s e).1 (t ++ [e])

/-- Soundness invariant of the coordinator: everything in the seen-sets, and
every raised confirmation flag of the current candidate, is backed by an
actual report in the trace. -/
def CheckpointInv (cfg : CheckpointConfig) (s : CheckpointState)
    (t : List CheckpointEvent) : Prop :=
  (∀ h ∈ s.blocks_processed, reportedBy .Blocks t h) ∧
  (∀ h ∈ s.txs_processed, reportedBy .Transactions t h) ∧
  (∀ c, s.checkpoint_candidate = some c → s.cp_ok_blocks = true →
    reportedBy .Blocks t c.hash) ∧
  (∀ c, s.checkpoint_candidate = some c → s.cp_ok_txs = true →
    cfg.disable_transaction_processing = true ∨ reportedBy .Transactions t c.hash)

theorem reportedBy_append (origin : CheckpointOrigin) (t : List CheckpointEvent)
    (e : CheckpointEvent) (h : Hash) (hr : reportedBy origin t h) :
    reportedBy origin (t ++ [e]) h := by
  obtain ⟨x, hx, hox, hhx⟩ := hr
  exact ⟨x, List.mem_append_left _ hx, hox, hhx⟩

theorem mem_insertIfAbsent (l : List Hash) (x h : Hash)
    (hm : x ∈ insertIfAbsent l h) : x ∈ l ∨ x = h := by
  unfold insertIfAbsent at hm
  split at hm
  · exact Or.inl hm
  · rcases List.mem_append.mp hm with hm | hm
    · exact Or.inl hm
    · simp at hm
      exact Or.inr hm

theorem checkpointPhase1_inv (cfg : CheckpointConfig) (s : CheckpointState)
    (t : List CheckpointEvent) (e : CheckpointEvent)
    (h : CheckpointInv cfg s t) :
    CheckpointInv cfg (checkpointPhase1 cfg s e) (t ++ [e]) := by
  obtain ⟨h1, h2, h3, h4⟩ := h
  have m1 : ∀ h' ∈ s.blocks_processed, reportedBy .Blocks (t ++ [e]) h' :=
    fun h' hh => reportedBy_append _ t e h' (h1 h' hh)
  have m2 : ∀ h' ∈ s.txs_processed, reportedBy .Transactions (t ++ [e]) h' :=
    fun h' hh => reportedBy_append _ t e h' (h2 h' hh)
  have m3 : ∀ c, s.checkpoint_candidate = some c → s.cp_ok_blocks = true →
      reportedBy .Blocks (t ++ [e]) c.hash :=
    fun c hc hf => reportedBy_append _ t e c.hash (h3 c hc hf)
  have m4 : ∀ c, s.checkpoint_candidate = some c → s.cp_ok_txs = true →
      cfg.disable_transaction_processing = true ∨
        reportedBy .Transactions (t ++ [e]) c.hash := by
    intro c hc hf
    rcases h4 c hc hf with hd | hr
    · exact Or.inl hd
    · exact Or.inr (reportedBy_append _ t e c.hash hr)
  unfold checkpointPhase1
  rcases ho : e.block.origin with _ | _ | _ | _
  · dsimp only
    split
    · split
      · refine ⟨m1, m2, ?_, ?_⟩
        · intro c hc _
          simp only [Option.some.injEq] at hc
          subst hc
          exact ⟨e, by simp, ho, rfl⟩
        · intro c hc hf
          simp at hf
      · exact ⟨m1, m2, m3, m4⟩
    · refine ⟨?_, m2, m3, m4⟩
      intro h' hh
      rcases mem_insertIfAbsent _ _ _ hh with hh | hh
      · exact m1 h' hh
      · subst hh
        exact ⟨e, by simp, ho, rfl⟩
  · dsimp only
    refine ⟨m1, ?_, m3, m4⟩
    intro h' hh
    rcases mem_insertIfAbsent _ _ _ hh with hh | hh
    · exact m2 h' hh
    · subst hh
      exact ⟨e, by simp, ho, rfl⟩
  · dsimp only
    split
    · refine ⟨m1, m2, ?_, ?_⟩
      · intro c _ hf
        simp at hf
      · intro c _ hf
        simp at hf
    · exact ⟨m1, m2, m3, m4⟩
  · exact ⟨m1, m2, m3, m4⟩

theorem checkpointPhase2_inv (cfg : CheckpointConfig) (now : Nat)
    (s1 : CheckpointState) (t : List CheckpointEvent)
    (h : CheckpointInv cfg s1 t) :
    CheckpointInv cfg (checkpointPhase2 cfg now s1).1 t := by
  obtain ⟨h1, h2, h3, h4⟩ := h
  unfold checkpointPhase2
  rcases hcand : s1.checkpoint_candidate with _ | c
  · exact ⟨h1, h2, h3, h4⟩
  · dsimp only
    have hokb : checkpointCandidateOkBlocks s1 c = true →
        reportedBy .Blocks t c.hash := by
      intro hf
      rcases Bool.or_eq_true _ _ ▸ hf with hf | hf
      · exact h3 c hcand hf
      · exact h1 c.hash (of_decide_eq_true hf)
    have hokt : checkpointCandidateOkTxs cfg s1 c = true →
        cfg.disable_transaction_processing = true ∨
          reportedBy .Transactions t c.hash := by
      intro hf
      rcases Bool.or_eq_true _ _ ▸ hf with hf | hf
      · exact h4 c hcand hf
      · rcases Bool.or_eq_true _ _ ▸ hf with hf | hf
        · exact Or.inl hf
        · exact Or.inr (h2 c.hash (of_decide_eq_true hf))
    split
    · exact ⟨by simp, by simp, by simp, by simp⟩
    · split
      · refine ⟨by simp, by simp, ?_, ?_⟩
        · intro c' hc' hf
          simp only [Option.some.injEq] at hc'
          subst hc'
          exact hokb hf
        · intro c' hc' hf
          simp only [Option.some.injEq] at hc'
          subst hc'
          exact hokt hf
      · split
        · exact ⟨by simp, by simp, by simp, by simp⟩
        · refine ⟨by simp, by simp, ?_, ?_⟩
          · intro c' hc' hf
            simp only [Option.some.injEq] at hc'
            subst hc'
            exact hokb hf
          · intro c' hc' hf
            simp only [Option.some.injEq] at hc'
            subst hc'
            exact hokt hf

theorem checkpointReachable_inv (cfg : CheckpointConfig) {s : CheckpointState}
    {t : List CheckpointEvent} (h : CheckpointReachable cfg s t) :
    CheckpointInv cfg s t := by
  induction h with
  | init =>
    refine ⟨?_, ?_, ?_, ?_⟩ <;> simp [checkpointInit]
  | @step s' t' e hr ih =>
    exact checkpointPhase2_inv cfg e.now _ (t' ++ [e])
      (checkpointPhase1_inv cfg s' t' e ih)

theorem checkpointPhase2_save_confirmed (cfg : CheckpointConfig) (now : Nat)
    (s1 : CheckpointState) (t : List CheckpointEvent) (h : Hash)
    (hinv : CheckpointInv cfg s1 t)
    (hs : (checkpointPhase2 cfg now s1).2 = some h) :
    reportedBy .Blocks t h ∧
    (cfg.disable_transaction_processing = true ∨ reportedBy .Transactions t h) := by
  obtain ⟨h1, h2, h3, h4⟩ := hinv
  unfold checkpointPhase2 at hs
  rcases hcand : s1.checkpoint_candidate with _ | c
  · rw [hcand] at hs
    simp at hs
  · rw [hcand] at hs
    dsimp only at hs
    by_cases hok : (checkpointCandidateOkBlocks s1 c
        && checkpointCandidateOkTxs cfg s1 c) = true
    · rw [if_pos hok] at hs
      simp only [Option.some.injEq] at hs
      subst hs
      have hokb := (Bool.and_eq_true _ _ ▸ hok).1
      have hokt := (Bool.and_eq_true _ _ ▸ hok).2
      constructor
      · rcases Bool.or_eq_true _ _ ▸ hokb with hf | hf
        · exact h3 c hcand hf
        · exact h1 c.hash (of_decide_eq_true hf)
      · rcases Bool.or_eq_true _ _ ▸ hokt with hf | hf
        · exact h4 c hcand hf
        · rcases Bool.or_eq_true _ _ ▸ hf with hf | hf
          · exact Or.inl hf
          · exact Or.inr (h2 c.hash (of_decide_eq_true hf))
    · rw [if_neg hok] at hs
      split at hs
      · simp at hs
      · split at hs
        · simp at hs
        · simp at hs

/-- C1: in any reachable state of the checkpoint coordinator, whenever an
iteration saves a hash to the Var table (`save_checkpoint`), that hash has
been reported by the Blocks stage (which, when virtual-chain processing is
disabled, includes the case of the candidate itself originating from Blocks),
and — unless transaction processing is disabled — it has also been reported
by the Transactions stage: the coordinator never saves a hash that an enabled
stage has not confirmed. -/
theorem checkpoint_save_only_confirmed (cfg : CheckpointConfig)
    (s : CheckpointState) (t : List CheckpointEvent) (e : CheckpointEvent)
    (h : Hash) (hr : CheckpointReachable cfg s t)
    (hs : (checkpointStep cfg s e).2 = some h) :
    reportedBy .Blocks (t ++ [e]) h ∧
    (cfg.disable_transaction_processing = true ∨
      reportedBy .Transactions (t ++ [e]) h) := by
  have hinv := checkpointReachable_inv cfg hr
  have hinv1 := checkpointPhase1_inv cfg s t e hinv
  exact checkpointPhase2_save_confirmed cfg e.now _ (t ++ [e]) h hinv1 hs

/-- Witness for C1 at concrete inputs: with virtual-chain processing and
transaction processing disabled, a Blocks-origin candidate popped at second 61
is selected and saved in the same iteration, and the saved hash 42 is indeed
Blocks-reported in the trace. -/
theorem checkpoint_save_only_confirmed_witness :
    (checkpointStep ⟨true, true, 1⟩ checkpointInit
        ⟨⟨.Blocks, 42, 0, 0, 0⟩, 61⟩).2 = some 42 ∧
    reportedBy .Blocks ([] ++ [⟨⟨.Blocks, 42, 0, 0, 0⟩, 61⟩]) 42 ∧
    ((⟨true, true, 1⟩ : CheckpointConfig).disable_transaction_processing = true ∨
      reportedBy .Transactions ([] ++ [⟨⟨.Blocks, 42, 0, 0, 0⟩, 61⟩]) 42) := by
  refine ⟨by decide, ?_⟩
  exact checkpoint_save_only_confirmed ⟨true, true, 1⟩ checkpointInit []
    ⟨⟨.Blocks, 42, 0, 0, 0⟩, 61⟩ 42 CheckpointReachable.init (by decide)

/- ----------------------------------------------------------------
   Virtual-chain processor
   (indexer/src/virtual_chain/process_virtual_chain.rs, accept_transactions.rs)
   ---------------------------------------------------------------- -/

/-- Configuration read by the VCP loop. -/
structure VcpConfig where
  disable_transaction_acceptance : Bool
  dynamic_tip_distance : Bool
  vcp_window : Nat
  vcp_interval : Nat
deriving DecidableEq

/-- Length of the sliding reorg window:
`(vcp_window * 1_000 / vcp_interval).max(1)`. -/
def tipDistanceWindow (cfg : VcpConfig) : Nat :=
  max (cfg.vcp_window * 1000 / cfg.vcp_interval) 1

/-- Header fields of an accepting block fetched via `get_block`. -/
structure BlockHeaderInfo where
  hash : Hash
  timestamp : Nat
  daa_score : Nat
  blue_score : Nat
deriving DecidableEq

/-- One `get_virtual_chain_from_block` response: the added chain blocks (with
their headers), the removed chain block hashes, and the accepted transaction
ids grouped per accepting block. -/
structure VcpEvent where
  added : List BlockHeaderInfo
  removed : List Hash
  accepted_transaction_ids : List (Hash × List Hash)
deriving DecidableEq

/-- Mutable state of the VCP loop, together with the acceptance table it
writes. -/
structure VcpState where
  start_hash : Hash
  synced : Bool
  tip_distance : Nat
  tip_distance_history : List Bool
  acceptances : List TransactionAcceptance
deriving DecidableEq

/-- Initial VCP state: `tip_distance` starts at 10 when dynamic mode is
enabled, else at 0. -/
def vcpInit (cfg : VcpConfig) (checkpoint : Hash)
    (acceptances : List TransactionAcceptance) : VcpState :=
  { start_hash := checkpoint, synced := false,
    tip_distance := if cfg.dynamic_tip_distance then 10 else 0,
    tip_distance_history := [], acceptances := acceptances }

/-- Sliding window after recording the current batch's reorg flag: drop the
oldest entry when the window is full, then push the flag at the front. -/
def recordedHistory (window : Nat) (history : List Bool) (reorg : Bool) :
    List Bool :=
  reorg :: (if history.length = window then history.dropLast else history)

/-- Number of reorg entries in the window (`filter(|&&x| x).count()`). -/
def reorgsCount (history : List Bool) : Nat :=
  history.count true

/-- Embedding of the adaptive tip-distance block (process_virtual_chain.rs
lines 109-132): push the batch's reorg flag; with at least 3 reorgs in the
window increase the distance (and blank the newest entry); with zero reorgs,
synced, and a positive distance decrease it (and, when the window is full,
mark the newest entry so no further decrease happens for a full window). -/
def tipDistanceUpdate (window : Nat) (synced : Bool) (tip : Nat)
    (history : List Bool) (reorg : Bool) : Nat × List Bool :=
  let h := recordedHistory window history reorg
  let rc := reorgsCount h
  if 3 ≤ rc then
    (tip + 1, false :: h.tail)
  else if synced ∧ rc = 0 ∧ 0 < tip then
    (tip - 1, if h.length = window then true :: h.tail else h)
  else (tip, h)

/-- Number of acceptance rows removed for the batch (`remove_chain_blocks`:
`DELETE FROM transactions_acceptances WHERE block_hash = ANY(removed)`). -/
def vcpRowsRemoved (s : VcpState) (e : VcpEvent) : Nat :=
  (s.acceptances.filter (acceptanceMatchesBlocks e.removed)).length

/-- Window contents after this batch's reorg flag has been recorded. -/
def vcpRecordedHistory (cfg : VcpConfig) (s : VcpState) (e : VcpEvent) :
    List Bool :=
  recordedHistory (tipDistanceWindow cfg) s.tip_distance_history
    (decide (0 < vcpRowsRemoved s e))

/-- The last accepting block of the batch after tip-distance truncation
(`added_chain_block_hashes[..len - tip_distance].last()`). -/
def vcpLastAccepting (s : VcpState) (e : VcpEvent) : BlockHeaderInfo :=
  (e.added.take (e.added.length - s.tip_distance)).getLastD ⟨0, 0, 0, 0⟩

/-- Checkpoint candidate pushed for the batch. -/
def vcpCheckpointBlock (s : VcpState) (e : VcpEvent) : CheckpointBlock :=
  { origin := .Vcp
    hash := (vcpLastAccepting s e).hash
    timestamp := (vcpLastAccepting s e).timestamp
    daa_score := (vcpLastAccepting s e).daa_score
    blue_score := (vcpLastAccepting s e).blue_score }

/-- Acceptance rows built from the truncated accepted transaction ids
(accept_transactions.rs). -/
def acceptTransactionsRows (ids : List (Hash × List Hash)) :
    List TransactionAcceptance :=
  ids.foldr
    (fun p acc =>
      p.2.map (fun tid =>
        ({ transaction_id := some tid, block_hash := some p.1 } :
          TransactionAcceptance)) ++ acc)
    []

/-- Result of one VCP poll iteration. -/
structure VcpStepResult where
  state : VcpState
  committed : Bool
  rows_removed : Nat
  vars_writes : List (String × String)
  checkpoint_pushed : Option CheckpointBlock
deriving DecidableEq

/-- Embedding of one iteration of the VCP loop on a successful RPC response
(process_virtual_chain.rs lines 58-157): when the response contains more added
blocks than the tip distance, truncate, delete the acceptances of the removed
chain blocks, insert the accepted transaction ids (when transaction acceptance
is enabled), update the adaptive tip distance, push a Vcp checkpoint candidate
and advance `start_hash`; in every case flip `synced` once a response with
fewer than 200 added blocks is seen.  The DAA-score interlock and the
poll-interval sleeps suspend without changing this state and are not
modelled.  `vars_writes` records every write to the `vars` table performed by
the iteration. -/
def vcpStep (cfg : VcpConfig) (s : VcpState) (e : VcpEvent) : VcpStepResult :=
  let added_blocks_count := e.added.length
  if s.tip_distance < added_blocks_count then
    let rows_removed := vcpRowsRemoved s e
    let acceptances :=
      s.acceptances.filter (fun a => !acceptanceMatchesBlocks e.removed a)
    let acceptances :=
      if !cfg.disable_transaction_acceptance then
        (insert_transaction_acceptances
          (acceptTransactionsRows
            (e.accepted_transaction_ids.take (added_blocks_count - s.tip_distance)))
          acceptances).1
      else acceptances
    let tip_hist :=
      if cfg.dynamic_tip_distance then
        tipDistanceUpdate (tipDistanceWindow cfg) s.synced s.tip_distance
          s.tip_distance_history (decide (0 < rows_removed))
      else (s.tip_distance, s.tip_distance_history)
    let synced := if !s.synced && added_blocks_count < 200 then true else s.synced
    { state :=
        { start_hash := (vcpLastAccepting s e).hash
          synced := synced
          tip_distance := tip_hist.1
          tip_distance_history := tip_hist.2
          acceptances := acceptances }
      committed := true
      rows_removed := rows_removed
      vars_writes := []
      checkpoint_pushed := some (vcpCheckpointBlock s e) }
  else
    let synced := if !s.synced && added_blocks_count < 200 then true else s.synced
    { state := { s with synced := synced }
      committed := false
      rows_removed := 0
      vars_writes := []
      checkpoint_pushed := none }

/-- Claim C6 as stated: the tip distance decrements only when VCP is synced,
the distance is positive, and a full window has passed with zero reorgs —
that is, the recorded window has reached its configured length and contains no
reorg entry. -/
def vcpTipDecrementFullWindowClaim : Prop :=
  ∀ (cfg : VcpConfig) (s : VcpState) (e : VcpEvent),
    (vcpStep cfg s e).state.tip_distance < s.tip_distance →
      s.synced = true ∧ 0 < s.tip_distance ∧
      (vcpRecordedHistory cfg s e).length = tipDistanceWindow cfg ∧
      reorgsCount (vcpRecordedHistory cfg s e) = 0

/-- Counterexample to C6 as stated: with a window of 5 batches, a synced VCP
at tip distance 1 and an empty history decrements on its very first reorg-free
batch, long before a full window has passed. -/
theorem vcp_tip_decrement_before_full_window : ¬ vcpTipDecrementFullWindowClaim := by
  intro hcl
  have h := hcl ⟨true, true, 5, 1000⟩ ⟨0, true, 1, [], []⟩
    ⟨[⟨1, 0, 0, 0⟩, ⟨2, 0, 0, 0⟩], [], []⟩ (by decide)
  exact absurd h.2.2.1 (by decide)

/-- C6 (amended): `tip_distance` is a natural number (hence never negative),
starts at 10 with dynamic mode enabled and at 0 otherwise, and changes only as
follows: it increments by 1 exactly when the recorded window contains at least
3 reorg entries, and it decrements by 1 only in dynamic mode when VCP is
synced, the distance is positive, and the recorded window — which may not yet
have reached its full length — contains zero reorg entries. -/
theorem vcpStep_tip_cases (cfg : VcpConfig) (s : VcpState) (e : VcpEvent) :
    (vcpStep cfg s e).state.tip_distance = s.tip_distance ∨
    (cfg.dynamic_tip_distance = true ∧
      3 ≤ reorgsCount (vcpRecordedHistory cfg s e) ∧
      (vcpStep cfg s e).state.tip_distance = s.tip_distance + 1) ∨
    (cfg.dynamic_tip_distance = true ∧ s.synced = true ∧
      reorgsCount (vcpRecordedHistory cfg s e) = 0 ∧ 0 < s.tip_distance ∧
      (vcpStep cfg s e).state.tip_distance = s.tip_distance - 1) := by
  unfold vcpStep
  by_cases hc : s.tip_distance < e.added.length
  · rw [if_pos hc]
    dsimp only
    by_cases hdyn : cfg.dynamic_tip_distance = true
    · rw [if_pos hdyn]
      unfold tipDistanceUpdate
      dsimp only
      rw [show recordedHistory (tipDistanceWindow cfg) s.tip_distance_history
            (decide (0 < vcpRowsRemoved s e)) = vcpRecordedHistory cfg s e from rfl]
      by_cases h3 : 3 ≤ reorgsCount (vcpRecordedHistory cfg s e)
      · rw [if_pos h3]
        exact Or.inr (Or.inl ⟨hdyn, h3, rfl⟩)
      · rw [if_neg h3]
        by_cases hdec : s.synced = true ∧
            reorgsCount (vcpRecordedHistory cfg s e) = 0 ∧ 0 < s.tip_distance
        · rw [if_pos hdec]
          exact Or.inr (Or.inr ⟨hdyn, hdec.1, hdec.2.1, hdec.2.2, rfl⟩)
        · rw [if_neg hdec]
          exact Or.inl rfl
    · rw [if_neg hdyn]
      exact Or.inl rfl
  · rw [if_neg hc]
    exact Or.inl rfl

/-- C6 (amended): `tip_distance` is a natural number (hence never negative),
starts at 10 with dynamic mode enabled and at 0 otherwise, and changes only as
follows: it increments by 1 only when, in dynamic mode, the recorded window
contains at least 3 reorg entries, and it decrements by 1 only when, in
dynamic mode, VCP is synced, the distance is positive, and the recorded
window — which may not yet have reached its full length — contains zero reorg
entries. -/
theorem vcp_tip_distance_rules (cfg : VcpConfig) (s : VcpState) (e : VcpEvent)
    (checkpoint : Hash) (acc : List TransactionAcceptance) :
    ((vcpStep cfg s e).state.tip_distance < s.tip_distance →
      (vcpStep cfg s e).state.tip_distance + 1 = s.tip_distance ∧
      cfg.dynamic_tip_distance = true ∧ s.synced = true ∧ 0 < s.tip_distance ∧
      reorgsCount (vcpRecordedHistory cfg s e) = 0) ∧
    (s.tip_distance < (vcpStep cfg s e).state.tip_distance →
      (vcpStep cfg s e).state.tip_distance = s.tip_distance + 1 ∧
      cfg.dynamic_tip_distance = true ∧
      3 ≤ reorgsCount (vcpRecordedHistory cfg s e)) ∧
    (vcpInit cfg checkpoint acc).tip_distance =
      (if cfg.dynamic_tip_distance then 10 else 0) ∧
    0 ≤ (vcpStep cfg s e).state.tip_distance := by
  refine ⟨?_, ?_, rfl, Nat.zero_le _⟩
  · intro hlt
    rcases vcpStep_tip_cases cfg s e with h | ⟨_, _, h⟩ | ⟨hdyn, hsy, hrc, hpos, h⟩
    · omega
    · omega
    · exact ⟨by omega, hdyn, hsy, hpos, hrc⟩
  · intro hlt
    rcases vcpStep_tip_cases cfg s e with h | ⟨hdyn, h3, h⟩ | ⟨_, _, _, _, h⟩
    · omega
    · exact ⟨h, hdyn, h3⟩
    · omega

/-- Witness for C6 (amended) at concrete inputs: a synced VCP at distance 1
with an empty window decrements to 0 on a reorg-free batch, and a VCP at
distance 0 whose recorded window reaches 3 reorgs increments to 1. -/
theorem vcp_tip_distance_rules_witness :
    ((vcpStep ⟨true, true, 5, 1000⟩ ⟨0, true, 1, [], []⟩
        ⟨[⟨1, 0, 0, 0⟩, ⟨2, 0, 0, 0⟩], [], []⟩).state.tip_distance <
      (⟨0, true, 1, [], []⟩ : VcpState).tip_distance) ∧
    ((vcpStep ⟨true, true, 5, 1000⟩ ⟨0, true, 1, [], []⟩
        ⟨[⟨1, 0, 0, 0⟩, ⟨2, 0, 0, 0⟩], [], []⟩).state.tip_distance + 1 = 1 ∧
      True ∧ True ∧ 0 < 1 ∧
      reorgsCount (vcpRecordedHistory ⟨true, true, 5, 1000⟩ ⟨0, true, 1, [], []⟩
        ⟨[⟨1, 0, 0, 0⟩, ⟨2, 0, 0, 0⟩], [], []⟩) = 0) ∧
    ((⟨0, false, 0, [true, true], [⟨some 1, some 9⟩]⟩ : VcpState).tip_distance <
      (vcpStep ⟨true, true, 5, 1000⟩ ⟨0, false, 0, [true, true], [⟨some 1, some 9⟩]⟩
        ⟨[⟨3, 0, 0, 0⟩], [9], []⟩).state.tip_distance) ∧
    ((vcpStep ⟨true, true, 5, 1000⟩ ⟨0, false, 0, [true, true], [⟨some 1, some 9⟩]⟩
        ⟨[⟨3, 0, 0, 0⟩], [9], []⟩).state.tip_distance = 0 + 1 ∧
      3 ≤ reorgsCount (vcpRecordedHistory ⟨true, true, 5, 1000⟩
        ⟨0, false, 0, [true, true], [⟨some 1, some 9⟩]⟩ ⟨[⟨3, 0, 0, 0⟩], [9], []⟩)) := by
  have hdec := (vcp_tip_distance_rules ⟨true, true, 5, 1000⟩ ⟨0, true, 1, [], []⟩
    ⟨[⟨1, 0, 0, 0⟩, ⟨2, 0, 0, 0⟩], [], []⟩ 0 []).1 (by decide)
  have hinc := (vcp_tip_distance_rules ⟨true, true, 5, 1000⟩
    ⟨0, false, 0, [true, true], [⟨some 1, some 9⟩]⟩
    ⟨[⟨3, 0, 0, 0⟩], [9], []⟩ 0 []).2.1 (by decide)
  exact ⟨by decide, ⟨hdec.1, trivial, trivial, hdec.2.2.2.1, hdec.2.2.2.2⟩,
    by decide, hinc.1, hinc.2.2⟩

/-- Claim C7 as stated: every committing VCP iteration both updates the
in-memory `start_hash` to the new last accepting block and persists a
`vcp_checkpoint` entry in the vars table holding that block's hash. -/
def vcpPersistsVcpCheckpointClaim : Prop :=
  ∀ (cfg : VcpConfig) (s : VcpState) (e : VcpEvent),
    (vcpStep cfg s e).committed = true →
      (vcpStep cfg s e).state.start_hash = (vcpLastAccepting s e).hash ∧
      ∃ v, (VAR_KEY_VCP_CHECKPOINT, v) ∈ (vcpStep cfg s e).vars_writes

/-- Counterexample to C7 as stated: a committing iteration (one added block,
tip distance 0) performs no write at all to the vars table — in particular no
`vcp_checkpoint` entry. -/
theorem vcp_commit_writes_no_vars : ¬ vcpPersistsVcpCheckpointClaim := by
  intro hcl
  rcases (hcl ⟨true, false, 5, 1000⟩ ⟨0, false, 0, [], []⟩
      ⟨[⟨3, 1, 2, 3⟩], [], []⟩ (by decide)).2 with ⟨v, hv⟩
  rw [show (vcpStep ⟨true, false, 5, 1000⟩ ⟨0, false, 0, [], []⟩
      ⟨[⟨3, 1, 2, 3⟩], [], []⟩).vars_writes = [] from rfl] at hv
  simp at hv

/-- C7 (amended): at the end of every committing VCP iteration the processor
updates its in-memory `start_hash` to the new last accepting block and pushes
a Vcp-origin checkpoint candidate for it, but performs no write to the vars
table: no `vcp_checkpoint` Var is persisted (`save_vcp_checkpoint` exists in
vars.rs but is never invoked). -/
theorem vcp_commit_updates_start_hash_only (cfg : VcpConfig) (s : VcpState)
    (e : VcpEvent) (h : (vcpStep cfg s e).committed = true) :
    (vcpStep cfg s e).state.start_hash = (vcpLastAccepting s e).hash ∧
    (vcpStep cfg s e).checkpoint_pushed = some (vcpCheckpointBlock s e) ∧
    (vcpStep cfg s e).vars_writes = [] := by
  unfold vcpStep at h ⊢
  by_cases hc : s.tip_distance < e.added.length
  · rw [if_pos hc]
    exact ⟨rfl, rfl, rfl⟩
  · rw [if_neg hc] at h
    simp at h

/-- Witness for C7 (amended) at a concrete committing iteration. -/
theorem vcp_commit_updates_start_hash_only_witness :
    (vcpStep ⟨true, false, 5, 1000⟩ ⟨0, false, 0, [], []⟩
        ⟨[⟨3, 1, 2, 3⟩], [], []⟩).committed = true ∧
    (vcpStep ⟨true, false, 5, 1000⟩ ⟨0, false, 0, [], []⟩
        ⟨[⟨3, 1, 2, 3⟩], [], []⟩).state.start_hash =
      (vcpLastAccepting ⟨0, false, 0, [], []⟩ ⟨[⟨3, 1, 2, 3⟩], [], []⟩).hash ∧
    (vcpStep ⟨true, false, 5, 1000⟩ ⟨0, false, 0, [], []⟩
        ⟨[⟨3, 1, 2, 3⟩], [], []⟩).checkpoint_pushed =
      some (vcpCheckpointBlock ⟨0, false, 0, [], []⟩ ⟨[⟨3, 1, 2, 3⟩], [], []⟩) ∧
    (vcpStep ⟨true, false, 5, 1000⟩ ⟨0, false, 0, [], []⟩
        ⟨[⟨3, 1, 2, 3⟩], [], []⟩).vars_writes = [] :=
  ⟨by decide,
    vcp_commit_updates_start_hash_only ⟨true, false, 5, 1000⟩ ⟨0, false, 0, [], []⟩
      ⟨[⟨3, 1, 2, 3⟩], [], []⟩ (by decide)⟩

/- ----------------------------------------------------------------
   Retention pruner step sequencing (indexer/src/prune.rs::prune)
   ---------------------------------------------------------------- -/

/-- Per-table retention settings (humantime durations, modelled in
milliseconds). -/
structure PruningConfig where
  retention : Option Nat
  retention_block_parent : Option Nat
  retention_blocks_transactions : Option Nat
  retention_blocks : Option Nat
  retention_transactions_acceptances : Option Nat
  retention_transactions_outputs : Option Nat
  retention_transactions_inputs : Option Nat
  retention_transactions : Option Nat
  retention_addresses_transactions : Option Nat
  retention_scripts_transactions : Option Nat
deriving DecidableEq

/-- Fallback of every per-table retention to the global `retention`
(prune.rs lines 25-34). -/
def applyRetentionDefaults (p : PruningConfig) : PruningConfig :=
  { p with
    retention_block_parent := p.retention_block_parent.or p.retention
    retention_blocks_transactions := p.retention_blocks_transactions.or p.retention
    retention_blocks := p.retention_blocks.or p.retention
    retention_transactions_acceptances :=
      p.retention_transactions_acceptances.or p.retention
    retention_transactions_outputs := p.retention_transactions_outputs.or p.retention
    retention_transactions_inputs := p.retention_transactions_inputs.or p.retention
    retention_transactions := p.retention_transactions.or p.retention
    retention_addresses_transactions :=
      p.retention_addresses_transactions.or p.retention
    retention_scripts_transactions :=
      p.retention_scripts_transactions.or p.retention }

/-- The pruner's steps, in execution order. -/
inductive PruneStepName
  | blockParent
  | blocksTransactions
  | blocks
  | transactionsAcceptances
  | spentTransactionsOutputs
  | transactionsInputs
  | transactions
  | addressesTransactions
  | scriptsTransactions
deriving DecidableEq

/-- A step is present when its retention option is configured. -/
def optStep (b : Bool) (n : PruneStepName) : List PruneStepName :=
  if b then [n] else []

theorem mem_optStep {x n : PruneStepName} {b : Bool} :
    x ∈ optStep b n ↔ b = true ∧ x = n := by
  unfold optStep
  split
  · simp [*]
  · simp [*]

/-- Steps executed by one `prune` run: before each step the shutdown flag is
re-read (`run.load`; `run i` is the value seen at the i-th check) and the run
returns early when it is cleared; each step itself executes exactly when its
retention option is configured (prune.rs lines 85-218).  No other condition —
in particular nothing about the stored checkpoint — gates any step. -/
def pruneExecutedSteps (p : PruningConfig) (run : Nat → Bool) :
    List PruneStepName :=
  if run 0 then
    optStep p.retention_block_parent.isSome .blockParent ++
    (if run 1 then
      optStep p.retention_blocks_transactions.isSome .blocksTransactions ++
      (if run 2 then
        optStep p.retention_blocks.isSome .blocks ++
        (if run 3 then
          optStep p.retention_transactions_acceptances.isSome .transactionsAcceptances ++
          (if run 4 then
            optStep p.retention_transactions_outputs.isSome .spentTransactionsOutputs ++
            (if run 5 then
              optStep p.retention_transactions_inputs.isSome .transactionsInputs ++
              (if run 6 then
                optStep p.retention_transactions.isSome .transactions ++
                (if run 7 then
                  optStep p.retention_addresses_transactions.isSome .addressesTransactions ++
                  (if run 8 then
                    optStep p.retention_scripts_transactions.isSome .scriptsTransactions
                  else [])
                else [])
              else [])
            else [])
          else [])
        else [])
      else [])
    else [])
  else []

/-- Claim C3 as stated: the transactions pruning step executes only when the
latest saved checkpoint is newer than the computed cutoff timestamp. -/
def prunerChecksCheckpointClaim : Prop :=
  ∀ (p : PruningConfig) (run : Nat → Bool)
    (checkpoint_timestamp cutoff : Int),
    PruneStepName.transactions ∈ pruneExecutedSteps p run →
      cutoff < checkpoint_timestamp

/-- Counterexample to C3 as stated: with every retention configured and no
shutdown, the transactions step executes regardless of the checkpoint — here
with a checkpoint timestamp (0) strictly older than the cutoff (1). -/
theorem pruner_ignores_checkpoint : ¬ prunerChecksCheckpointClaim := by
  intro hcl
  have h := hcl
    ⟨some 0, some 0, some 0, some 0, some 0, some 0, some 0, some 0, some 0, some 0⟩
    (fun _ => true) 0 1 (by decide)
  exact absurd h (by decide)

/-- C3 (amended): the transactions pruning step executes exactly when the
pruner is still running at each of the seven shutdown checks preceding it and
`retention_transactions` is configured; the pruner performs no comparison of
the stored checkpoint against the cutoff. -/
theorem prune_transactions_step_gating (p : PruningConfig) (run : Nat → Bool) :
    PruneStepName.transactions ∈ pruneExecutedSteps p run ↔
      ((∀ i, i ≤ 6 → run i = true) ∧ p.retention_transactions.isSome = true) := by
  unfold pruneExecutedSteps
  by_cases h0 : run 0 = true
  · rw [if_pos h0]
    by_cases h1 : run 1 = true
    · rw [if_pos h1]
      by_cases h2 : run 2 = true
      · rw [if_pos h2]
        by_cases h3 : run 3 = true
        · rw [if_pos h3]
          by_cases h4 : run 4 = true
          · rw [if_pos h4]
            by_cases h5 : run 5 = true
            · rw [if_pos h5]
              by_cases h6 : run 6 = true
              · rw [if_pos h6]
                simp only [List.mem_append, mem_optStep]
                constructor
                · intro hm
                  refine ⟨fun i hi => ?_, ?_⟩
                  · interval_cases i <;> assumption
                  · rcases hm with ⟨_, h⟩ | ⟨_, h⟩ | ⟨_, h⟩ | ⟨_, h⟩ | ⟨_, h⟩
                        | ⟨_, h⟩ | ⟨hsome, _⟩ | hm
                    · exact absurd h (by decide)
                    · exact absurd h (by decide)
                    · exact absurd h (by decide)
                    · exact absurd h (by decide)
                    · exact absurd h (by decide)
                    · exact absurd h (by decide)
                    · exact hsome
                    · exfalso
                      simp [mem_optStep] at hm
                · rintro ⟨_, hsome⟩
                  exact Or.inr (Or.inr (Or.inr (Or.inr (Or.inr (Or.inr
                    (Or.inl ⟨hsome, trivial⟩))))))
              · rw [if_neg h6]
                apply iff_of_false
                · intro hm
                  simp [mem_optStep] at hm
                · rintro ⟨hall, _⟩
                  exact h6 (hall 6 (by omega))
            · rw [if_neg h5]
              apply iff_of_false
              · intro hm
                simp [mem_optStep] at hm
              · rintro ⟨hall, _⟩
                exact h5 (hall 5 (by omega))
          · rw [if_neg h4]
            apply iff_of_false
            · intro hm
              simp [mem_optStep] at hm
            · rintro ⟨hall, _⟩
              exact h4 (hall 4 (by omega))
        · rw [if_neg h3]
          apply iff_of_false
          · intro hm
            simp [mem_optStep] at hm
          · rintro ⟨hall, _⟩
            exact h3 (hall 3 (by omega))
      · rw [if_neg h2]
        apply iff_of_false
        · intro hm
          simp [mem_optStep] at hm
        · rintro ⟨hall, _⟩
          exact h2 (hall 2 (by omega))
    · rw [if_neg h1]
      apply iff_of_false
      · intro hm
        simp [mem_optStep] at hm
      · rintro ⟨hall, _⟩
        exact h1 (hall 1 (by omega))
  · rw [if_neg h0]
    apply iff_of_false
    · intro hm
      simp at hm
    · rintro ⟨hall, _⟩
      exact h0 (hall 0 (by omega))

/- ----------------------------------------------------------------
   Transactions pruning (database/src/query/delete.rs::prune_transactions)
   ---------------------------------------------------------------- -/

/-- Slice of the store touched by `prune_transactions`. -/
structure PruneStore where
  transactions : List Transaction
  transactions_inputs : List TransactionInput
  transactions_outputs : List TransactionOutput
  transactions_acceptances : List TransactionAcceptance
deriving DecidableEq

/-- Kinds of SQL statements the transactions pruning step could issue, in the
vocabulary of the specification (including the `SET LOCAL` statement the
specification mentions). -/
inductive PruneStmt
  | begin
  | setLocalEnableSeqscanOff
  | deleteExpiredTransactionsReturning
  | selectAcceptedTransactionIds
  | deleteRejectedTransactionsInputs
  | deleteRejectedTransactionsOutputs
  | deleteAcceptedTransactionsInputsReturning
  | deleteSpentTransactionsOutputs
  | selectRemainingTransactionsOutputs
  | deleteFullySpentTransactionsAcceptances
  | commit
deriving DecidableEq

/-- Statements issued by `prune_transactions`, in order (chunked repetitions
of a statement collapsed to one entry). -/
def pruneTransactionsTrace : List PruneStmt :=
  [.begin, .deleteExpiredTransactionsReturning, .selectAcceptedTransactionIds,
   .deleteRejectedTransactionsInputs, .deleteRejectedTransactionsOutputs,
   .deleteAcceptedTransactionsInputsReturning, .deleteSpentTransactionsOutputs,
   .selectRemainingTransactionsOutputs, .deleteFullySpentTransactionsAcceptances,
   .commit]

/-- Phase (a): ids of the transactions with `block_time < $1`
(`DELETE FROM transactions ... RETURNING transaction_id`). -/
def expiredTxIds (block_time_lt : Int) (s : PruneStore) : List Hash :=
  (s.transactions.filter (fun t => decide (t.block_time < block_time_lt))).map
    (fun t => t.transaction_id)

/-- Phase (b): the expired ids present in the acceptance table. -/
def acceptedTxIds (block_time_lt : Int) (s : PruneStore) : List Hash :=
  (expiredTxIds block_time_lt s).filter (fun id =>
    decide (∃ a ∈ s.transactions_acceptances, a.transaction_id = some id))

/-- Phase (b): the expired ids absent from the acceptance table. -/
def rejectedTxIds (block_time_lt : Int) (s : PruneStore) : List Hash :=
  (expiredTxIds block_time_lt s).filter (fun id =>
    !decide (id ∈ acceptedTxIds block_time_lt s))

/-- Phase (d): previous outpoints returned while deleting the inputs of the
accepted expired transactions. -/
def spentTxOutpoints (block_time_lt : Int) (s : PruneStore) : List (Hash × Int) :=
  (s.transactions_inputs.filter (fun i =>
      decide (i.transaction_id ∈ acceptedTxIds block_time_lt s))).map
    (fun i => (i.previous_outpoint_hash, i.previous_outpoint_index))

/-- Outputs remaining after phases (c) and (e). -/
def remainingTransactionsOutputs (block_time_lt : Int) (s : PruneStore) :
    List TransactionOutput :=
  s.transactions_outputs.filter (fun o =>
    !decide (o.transaction_id ∈ rejectedTxIds block_time_lt s)
      && !decide ((o.transaction_id, o.index) ∈ spentTxOutpoints block_time_lt s))

/-- Phase (f): possibly-spent ids with no remaining output. -/
def fullySpentTxIds (block_time_lt : Int) (s : PruneStore) : List Hash :=
  ((spentTxOutpoints block_time_lt s).map (fun p => p.1)).filter (fun id =>
    !decide (∃ o ∈ remainingTransactionsOutputs block_time_lt s,
      o.transaction_id = id))

/-- Transactions surviving phase (a). -/
def pruneTransactions1 (block_time_lt : Int) (s : PruneStore) : List Transaction :=
  s.transactions.filter (fun t => !decide (t.block_time < block_time_lt))

/-- Inputs surviving phase (c)'s input delete (rejected ids removed). -/
def pruneInputs1 (block_time_lt : Int) (s : PruneStore) : List TransactionInput :=
  s.transactions_inputs.filter (fun i =>
    !decide (i.transaction_id ∈ rejectedTxIds block_time_lt s))

/-- Outputs surviving phase (c)'s output delete (rejected ids removed). -/
def pruneOutputs1 (block_time_lt : Int) (s : PruneStore) : List TransactionOutput :=
  s.transactions_outputs.filter (fun o =>
    !decide (o.transaction_id ∈ rejectedTxIds block_time_lt s))

/-- Previous outpoints returned by phase (d), as the code computes them: the
inputs of the accepted ids are deleted from the table as it stands after
phase (c). -/
def pruneSpentTxOutputs (block_time_lt : Int) (s : PruneStore) :
    List (Hash × Int) :=
  ((pruneInputs1 block_time_lt s).filter (fun i =>
      decide (i.transaction_id ∈ acceptedTxIds block_time_lt s))).map
    (fun i => (i.previous_outpoint_hash, i.previous_outpoint_index))

/-- Inputs surviving phase (d). -/
def pruneInputs2 (block_time_lt : Int) (s : PruneStore) : List TransactionInput :=
  (pruneInputs1 block_time_lt s).filter (fun i =>
    !decide (i.transaction_id ∈ acceptedTxIds block_time_lt s))

/-- Outputs surviving phase (e). -/
def pruneOutputs2 (block_time_lt : Int) (s : PruneStore) : List TransactionOutput :=
  (pruneOutputs1 block_time_lt s).filter (fun o =>
    !decide ((o.transaction_id, o.index) ∈ pruneSpentTxOutputs block_time_lt s))

/-- Phase (f)'s possibly-spent ids that still have an output, as the code
computes them against the table after phase (e). -/
def pruneUnspentTxIds (block_time_lt : Int) (s : PruneStore) : List Hash :=
  ((pruneSpentTxOutputs block_time_lt s).map (fun p => p.1)).filter (fun id =>
    decide (∃ o ∈ pruneOutputs2 block_time_lt s, o.transaction_id = id))

/-- Phase (f)'s fully-spent ids, as the code computes them. -/
def pruneFullySpentTxIds (block_time_lt : Int) (s : PruneStore) : List Hash :=
  ((pruneSpentTxOutputs block_time_lt s).map (fun p => p.1)).filter (fun id =>
    !decide (id ∈ pruneUnspentTxIds block_time_lt s))

/-- Acceptance rows surviving phase (f). -/
def pruneAcceptances1 (block_time_lt : Int) (s : PruneStore) :
    List TransactionAcceptance :=
  s.transactions_acceptances.filter (fun a =>
    !decide (∃ id ∈ pruneFullySpentTxIds block_time_lt s,
      a.transaction_id = some id))

/-- Embedding of `prune_transactions` (delete.rs lines 87-173): inside one
store transaction, delete the expired transactions returning their ids,
partition them by presence in the acceptance table, delete the inputs and
outputs of the rejected ids, delete the inputs of the accepted ids capturing
the returned previous outpoints, delete the outputs so identified, and delete
the acceptance rows of the possibly-spent ids that no longer have any output.
Returns the new store, the total `rows_affected`, and the statement trace. -/
def prune_transactions (block_time_lt : Int) (s : PruneStore) :
    PruneStore × Nat × List PruneStmt :=
  (⟨pruneTransactions1 block_time_lt s,
    pruneInputs2 block_time_lt s,
    pruneOutputs2 block_time_lt s,
    pruneAcceptances1 block_time_lt s⟩,
   (expiredTxIds block_time_lt s).length +
     (s.transactions_inputs.length - (pruneInputs1 block_time_lt s).length) +
     (s.transactions_outputs.length - (pruneOutputs1 block_time_lt s).length) +
     (pruneSpentTxOutputs block_time_lt s).length +
     ((pruneOutputs1 block_time_lt s).length -
       (pruneOutputs2 block_time_lt s).length) +
     (s.transactions_acceptances.length -
       (pruneAcceptances1 block_time_lt s).length),
   pruneTransactionsTrace)

theorem acceptedTxIds_subset_expired (block_time_lt : Int) (s : PruneStore)
    (id : Hash) (h : id ∈ acceptedTxIds block_time_lt s) :
    id ∈ expiredTxIds block_time_lt s :=
  (List.mem_filter.mp h).1

theorem accepted_not_rejected (block_time_lt : Int) (s : PruneStore) (id : Hash)
    (h : id ∈ acceptedTxIds block_time_lt s) :
    id ∉ rejectedTxIds block_time_lt s := by
  intro hr
  have := (List.mem_filter.mp hr).2
  simp only [Bool.not_eq_true', decide_eq_false_iff_not] at this
  exact this h

theorem mem_expired_iff_accepted_or_rejected (block_time_lt : Int)
    (s : PruneStore) (id : Hash) :
    id ∈ expiredTxIds block_time_lt s ↔
      id ∈ acceptedTxIds block_time_lt s ∨ id ∈ rejectedTxIds block_time_lt s := by
  constructor
  · intro h
    by_cases ha : id ∈ acceptedTxIds block_time_lt s
    · exact Or.inl ha
    · refine Or.inr (List.mem_filter.mpr ⟨h, ?_⟩)
      simp [ha]
  · rintro (h | h)
    · exact acceptedTxIds_subset_expired _ _ _ h
    · exact (List.mem_filter.mp h).1

theorem prune_spent_eq (block_time_lt : Int) (s : PruneStore) :
    pruneSpentTxOutputs block_time_lt s = spentTxOutpoints block_time_lt s := by
  unfold pruneSpentTxOutputs pruneInputs1 spentTxOutpoints
  congr 1
  rw [List.filter_filter]
  apply List.filter_congr
  intro i _
  by_cases h : i.transaction_id ∈ acceptedTxIds block_time_lt s
  · simp [h, accepted_not_rejected block_time_lt s i.transaction_id h]
  · simp [h]

theorem prune_outputs2_mem (block_time_lt : Int) (s : PruneStore)
    (o : TransactionOutput) :
    o ∈ pruneOutputs2 block_time_lt s ↔
    (o ∈ s.transactions_outputs ∧
      o.transaction_id ∉ rejectedTxIds block_time_lt s ∧
      (o.transaction_id, o.index) ∉ spentTxOutpoints block_time_lt s) := by
  unfold pruneOutputs2 pruneOutputs1
  simp only [prune_spent_eq]
  simp only [List.mem_filter, Bool.not_eq_true', decide_eq_false_iff_not, and_assoc]

theorem prune_remaining_mem (block_time_lt : Int) (s : PruneStore)
    (o : TransactionOutput) :
    o ∈ remainingTransactionsOutputs block_time_lt s ↔
    (o ∈ s.transactions_outputs ∧
      o.transaction_id ∉ rejectedTxIds block_time_lt s ∧
      (o.transaction_id, o.index) ∉ spentTxOutpoints block_time_lt s) := by
  unfold remainingTransactionsOutputs
  simp [List.mem_filter]

theorem prune_fully_spent_eq (block_time_lt : Int) (s : PruneStore) :
    pruneFullySpentTxIds block_time_lt s = fullySpentTxIds block_time_lt s := by
  unfold pruneFullySpentTxIds fullySpentTxIds
  simp only [prune_spent_eq]
  apply List.filter_congr
  intro id hid
  congr 1
  rw [decide_eq_decide]
  constructor
  · intro hm
    have h := (List.mem_filter.mp hm).2
    obtain ⟨o, ho, hoid⟩ := of_decide_eq_true h
    exact ⟨o, (prune_remaining_mem block_time_lt s o).mpr
      ((prune_outputs2_mem block_time_lt s o).mp ho), hoid⟩
  · rintro ⟨o, ho, hoid⟩
    refine List.mem_filter.mpr ⟨?_, ?_⟩
    · simpa [prune_spent_eq] using hid
    · exact decide_eq_true ⟨o, (prune_outputs2_mem block_time_lt s o).mpr
        ((prune_remaining_mem block_time_lt s o).mp ho), hoid⟩

/-- Claim C4's statement-shape component: the transactions pruning step issues
`SET LOCAL enable_seqscan = off` inside its transaction on every run. -/
def pruneTransactionsSeqscanClaim : Prop :=
  ∀ (block_time_lt : Int) (s : PruneStore),
    PruneStmt.setLocalEnableSeqscanOff ∈ (prune_transactions block_time_lt s).2.2

/-- Counterexample to C4 as stated: the statement trace of the transactions
pruning step contains no `SET LOCAL enable_seqscan = off` — here evaluated on
the empty store with cutoff 0. -/
theorem prune_transactions_no_seqscan : ¬ pruneTransactionsSeqscanClaim := by
  intro hcl
  exact absurd (hcl 0 ⟨[], [], [], []⟩) (by decide)

/-- C4 (amended): for every cutoff the transactions pruning step runs inside a
single store transaction — issuing exactly the statements of phases (a)-(f)
between `BEGIN` and `COMMIT`, with no `SET LOCAL enable_seqscan = off` — and
its effect on the store is: (a) the transactions with `block_time` below the
cutoff are deleted; the deleted ids are partitioned by acceptance (b); the
inputs of expired transactions are all deleted ((c) and (d), rejected and
accepted ids together covering the expired ids); the outputs deleted are
exactly those of rejected ids plus the previous outpoints captured in (d)
(phases (c) and (e)); and the acceptance rows deleted are exactly those of
possibly-spent ids with no remaining output (f). -/
theorem prune_transactions_phases (block_time_lt : Int) (s : PruneStore) :
    ((prune_transactions block_time_lt s).2.2 = pruneTransactionsTrace ∧
      PruneStmt.setLocalEnableSeqscanOff ∉ (prune_transactions block_time_lt s).2.2) ∧
    (∀ t, t ∈ (prune_transactions block_time_lt s).1.transactions ↔
      t ∈ s.transactions ∧ ¬ t.block_time < block_time_lt) ∧
    (∀ i, i ∈ (prune_transactions block_time_lt s).1.transactions_inputs ↔
      i ∈ s.transactions_inputs ∧
        i.transaction_id ∉ expiredTxIds block_time_lt s) ∧
    (∀ o, o ∈ (prune_transactions block_time_lt s).1.transactions_outputs ↔
      o ∈ s.transactions_outputs ∧
        o.transaction_id ∉ rejectedTxIds block_time_lt s ∧
        (o.transaction_id, o.index) ∉ spentTxOutpoints block_time_lt s) ∧
    (∀ a, a ∈ (prune_transactions block_time_lt s).1.transactions_acceptances ↔
      a ∈ s.transactions_acceptances ∧
        ∀ id ∈ fullySpentTxIds block_time_lt s, a.transaction_id ≠ some id) := by
  refine ⟨⟨rfl, (by decide :
      PruneStmt.setLocalEnableSeqscanOff ∉ pruneTransactionsTrace)⟩, ?_, ?_, ?_, ?_⟩
  · intro t
    show t ∈ pruneTransactions1 block_time_lt s ↔ _
    unfold pruneTransactions1
    simp [List.mem_filter]
  · intro i
    show i ∈ pruneInputs2 block_time_lt s ↔ _
    unfold pruneInputs2 pruneInputs1
    simp only [List.mem_filter, Bool.not_eq_true', decide_eq_false_iff_not, and_assoc]
    constructor
    · rintro ⟨hmem, hrej, hacc⟩
      refine ⟨hmem, fun hexp => ?_⟩
      rcases (mem_expired_iff_accepted_or_rejected block_time_lt s
          i.transaction_id).mp hexp with h | h
      · exact hacc h
      · exact hrej h
    · rintro ⟨hmem, hexp⟩
      refine ⟨hmem, fun h => hexp ?_, fun h => hexp ?_⟩
      · exact (mem_expired_iff_accepted_or_rejected block_time_lt s
          i.transaction_id).mpr (Or.inr h)
      · exact (mem_expired_iff_accepted_or_rejected block_time_lt s
          i.transaction_id).mpr (Or.inl h)
  · intro o
    exact prune_outputs2_mem block_time_lt s o
  · intro a
    show a ∈ pruneAcceptances1 block_time_lt s ↔ _
    unfold pruneAcceptances1
    simp only [prune_fully_spent_eq]
    simp [List.mem_filter]

/- ----------------------------------------------------------------
   UTXO set importer retry loop
   (indexer/src/utxo_import/utxo_set_importer.rs::UtxoSetImporter::start)
   ---------------------------------------------------------------- -/

/-- Chunks requested per batch (`RequestNextPruningPointUtxoSetChunk` cadence). -/
def IBD_BATCH_SIZE : Nat := 99

/-- Per-chunk receive timeout in seconds. -/
def IBD_TIMEOUT_SECONDS : Nat := 30

/-- Declared retry bound (utxo_set_importer.rs line 38).  The constant has no
use site in the importer. -/
def IBD_RETRIES : Nat := 10

/-- Outcome of one connection attempt of the `start` loop: the peer
connection failed, `receive_and_handle` returned an error (peer error,
per-chunk timeout, or unexpected pruning point), or the import completed. -/
inductive AttemptOutcome
  | connectFailed
  | protocolError
  | success
deriving DecidableEq

/-- Embedding of the `start` retry loop (`while !shutdown && !completed`):
one outcome is consumed per iteration; a failure sleeps and retries, a success
sets `completed`; exhausting the outcome list models shutdown.  Returns the
number of failed attempts consumed and whether the import completed. -/
def utxoImporterRun : List AttemptOutcome → Nat × Bool
  | [] => (0, false)
  | .success :: _ => (0, true)
  | .connectFailed :: rest =>
    ((utxoImporterRun rest).1 + 1, (utxoImporterRun rest).2)
  | .protocolError :: rest =>
    ((utxoImporterRun rest).1 + 1, (utxoImporterRun rest).2)

/-- Claim C9 as stated: the importer retries at most `IBD_RETRIES` times
before giving up. -/
def utxoImportBoundedRetriesClaim : Prop :=
  ∀ outcomes : List AttemptOutcome,
    (utxoImporterRun outcomes).1 ≤ IBD_RETRIES

/-- Counterexample to C9 as stated: eleven consecutive peer errors followed by
a success are all retried — the importer never gives up after `IBD_RETRIES`
failures. -/
theorem utxo_import_retries_beyond_bound : ¬ utxoImportBoundedRetriesClaim := by
  intro hcl
  exact absurd
    (hcl (List.replicate 11 AttemptOutcome.protocolError ++ [AttemptOutcome.success]))
    (by decide)

/-- C9 (amended): on a peer error or per-chunk timeout the importer
disconnects and retries with a reconnect without any bound: after any number
`n` of consecutive failures a subsequent success still completes the import,
and the import completes exactly when some attempt succeeds (otherwise it runs
until shutdown).  The declared `IBD_RETRIES = 10` bound is never enforced. -/
theorem utxo_import_unbounded_retries :
    (∀ n : Nat,
      utxoImporterRun
        (List.replicate n AttemptOutcome.protocolError ++ [AttemptOutcome.success]) =
        (n, true)) ∧
    (∀ outcomes : List AttemptOutcome,
      (utxoImporterRun outcomes).2 = true ↔ AttemptOutcome.success ∈ outcomes) := by
  constructor
  · intro n
    induction n with
    | zero => rfl
    | succ k ih =>
      rw [List.replicate_succ, List.cons_append]
      unfold utxoImporterRun
      rw [ih]
  · intro outcomes
    induction outcomes with
    | nil => simp [utxoImporterRun]
    | cons o rest ih =>
      cases o with
      | success => simp [utxoImporterRun]
      | connectFailed =>
        unfold utxoImporterRun
        rw [ih]
        simp
      | protocolError =>
        unfold utxoImporterRun
        rw [ih]
        simp

end SimplyKaspa
